import Mathlib

/-!
Verification development for the chesscpp2 engine core.

The C++ sources are shallowly embedded: 64-bit machine integers (`Bitboard`,
`HashKey`, `Move`) become `Nat` with explicit reduction modulo `2^64` where
C++ would wrap, signed `int` quantities that can go negative become `Int`,
and the mutable `Position` object becomes a record threaded through pure
functions.  Array fields become `List`s accessed with `getD`/`set` (with the
same out-of-range behaviour left unspecified as in C++).  The move-history
`std::vector` used as a stack is represented with the most recent state at
the head of a `List` (push_back = cons, back = head, pop_back = tail).
-/

namespace Chess

/-- All 64 bits set: the value of `~0ULL`, used to model 64-bit wraparound. -/
def mask64 : Nat := 2 ^ 64 - 1

/-- 64-bit left shift as performed on a C++ `uint64_t` (discarding high bits). -/
def shl64 (x n : Nat) : Nat := (x <<< n) &&& mask64

/-- Piece type constants from Types.h (enum PieceType). -/
def PAWN : Nat := 0
def KNIGHT : Nat := 1
def BISHOP : Nat := 2
def ROOK : Nat := 3
def QUEEN : Nat := 4
def KING : Nat := 5
def NO_PIECE_TYPE : Nat := 6

/-- Color constants (enum Color). -/
def WHITE : Nat := 0
def BLACK : Nat := 1

/-- Sentinel for an empty mailbox entry (enum Piece, NO_PIECE). -/
def NO_PIECE : Nat := 12

/-- Castling right bits (enum CastlingRight). -/
def WHITE_OO : Nat := 1
def WHITE_OOO : Nat := 2
def BLACK_OO : Nat := 4
def BLACK_OOO : Nat := 8
def NO_CASTLING : Nat := 0
def ALL_CASTLING : Nat := 15

/-- Move-flag constants (Types.h): bits 14-15 of the packed 16-bit move. -/
def NORMAL_MOVE : Nat := 0
def PROMOTION : Nat := 1 <<< 14
def EN_PASSANT : Nat := 2 <<< 14
def CASTLING : Nat := 3 <<< 14

/-- `NO_SQUARE` sentinel (Types.h). -/
def NO_SQUARE : Nat := 64

/-- Types.h `makeSquare`: rank-major square index. -/
def makeSquare (file rank : Nat) : Nat := rank * 8 + file

/-- Types.h `fileOf`: `sq & 7`. -/
def fileOf (sq : Nat) : Nat := sq &&& 7

/-- Types.h `rankOf`: `sq >> 3`. -/
def rankOf (sq : Nat) : Nat := sq >>> 3

/-- Types.h `operator~(Color)`: `Color(c ^ 1)`. -/
def flipColor (c : Nat) : Nat := c ^^^ 1

/-- Types.h `makeMove`: pack from/to into the low 12 bits. -/
def mkMove (from_ to_ : Nat) : Nat := (to_ <<< 6) ||| from_

/-- Types.h `makePromotion`. -/
def mkPromotion (from_ to_ promoPiece : Nat) : Nat :=
  PROMOTION ||| ((promoPiece - KNIGHT) <<< 12) ||| (to_ <<< 6) ||| from_

/-- Types.h `makeEnPassant`. -/
def mkEnPassant (from_ to_ : Nat) : Nat := EN_PASSANT ||| (to_ <<< 6) ||| from_

/-- Types.h `makeCastling`. -/
def mkCastling (from_ to_ : Nat) : Nat := CASTLING ||| (to_ <<< 6) ||| from_

/-- Types.h `fromSquare`: `m & 0x3F`. -/
def fromSquare (m : Nat) : Nat := m &&& 0x3F

/-- Types.h `toSquare`: `(m >> 6) & 0x3F`. -/
def toSquare (m : Nat) : Nat := (m >>> 6) &&& 0x3F

/-- Types.h `moveType`: `m & (3 << 14)`. -/
def moveType (m : Nat) : Nat := m &&& (3 <<< 14)

/-- Types.h `promotionType`: `((m >> 12) & 3) + KNIGHT`. -/
def promotionType (m : Nat) : Nat := ((m >>> 12) &&& 3) + KNIGHT

/-- Types.h `makePiece`: `c * 6 + pt`. -/
def makePiece (c pt : Nat) : Nat := c * 6 + pt

/-- Types.h `colorOf`: `pc / 6`. -/
def colorOf (pc : Nat) : Nat := pc / 6

/-- Types.h `typeOf`: `pc % 6`. -/
def typeOf (pc : Nat) : Nat := pc % 6

/-- Types.h `stringToSquare` on a 2-character token; other lengths give
`NO_SQUARE`.  Characters are the raw ASCII codes. -/
def stringToSquare (s : List Char) : Nat :=
  match s with
  | [cf, cr] =>
    let file : Int := (cf.toNat : Int) - ('a'.toNat : Int)
    let rank : Int := (cr.toNat : Int) - ('1'.toNat : Int)
    if file < 0 || file > 7 || rank < 0 || rank > 7 then NO_SQUARE
    else (rank * 8 + file).toNat
  | _ => NO_SQUARE

namespace BB

/-- Bitboard.h `squareBB`: `1ULL << sq` (sq < 64 in every defined use). -/
def squareBB (sq : Nat) : Nat := 1 <<< sq

/-- Bitboard.h `testBit`. -/
def testBitBB (bb sq : Nat) : Bool := bb.testBit sq

/-- Bitboard.h file mask constants. -/
def FILE_A_BB : Nat := 0x0101010101010101
def FILE_H_BB : Nat := FILE_A_BB <<< 7

/-- Bitboard.h `fileBB` (by file index, Types.h version). -/
def fileBBIdx (file : Nat) : Nat := FILE_A_BB <<< file

/-- Bitboard.h `popCount` (`__builtin_popcountll`): number of set bits among
the 64 bits of the word; exact for values < 2^64, which all well-formed
bitboards are. -/
def popCount (bb : Nat) : Nat := (List.range 64).countP (fun i => bb.testBit i)

/-- Bitboard.h `lsb` (`__builtin_ctzll`).  The C++ call is undefined on 0;
the engine compares results against `NO_SQUARE` (AI.cpp queen-development
check), i.e. it relies on the x86-64 `tzcnt` result 64, which we adopt. -/
def lsb (bb : Nat) : Nat := ((List.range 64).find? (fun i => bb.testBit i)).getD 64

/-- The squares of a bitboard in increasing order: exactly the order a
`while (bb) popLsb(bb)` loop visits them (valid for bb < 2^64). -/
def squaresOf (bb : Nat) : List Nat := (List.range 64).filter (fun i => bb.testBit i)

/-- Bitboard.cpp `pawnAttackWest<C>` on a single-square bitboard, and east
analogously; assembled below into the `PawnAttacks` table entries. -/
def pawnAttacksTable (c sq : Nat) : Nat :=
  let bb := squareBB sq
  if c = WHITE then
    shl64 (bb &&& (mask64 ^^^ FILE_A_BB)) 7 ||| shl64 (bb &&& (mask64 ^^^ FILE_H_BB)) 9
  else
    ((bb &&& (mask64 ^^^ FILE_A_BB)) >>> 9) ||| ((bb &&& (mask64 ^^^ FILE_H_BB)) >>> 7)

/-- Bitboard.cpp knight offsets. -/
def knightOffsets : List Int := [-17, -15, -10, -6, 6, 10, 15, 17]

/-- Bitboard.cpp king offsets. -/
def kingOffsets : List Int := [-9, -8, -7, -1, 1, 7, 8, 9]

/-- Bitboard.cpp `isValidKnightMove` (wrap guard). -/
def isValidKnightMove (from_ to_ : Nat) : Bool :=
  let fd := ((fileOf from_ : Int) - (fileOf to_ : Int)).natAbs
  let rd := ((rankOf from_ : Int) - (rankOf to_ : Int)).natAbs
  (fd = 1 && rd = 2) || (fd = 2 && rd = 1)

/-- Bitboard.cpp `isValidKingMove` (wrap guard). -/
def isValidKingMove (from_ to_ : Nat) : Bool :=
  let fd := ((fileOf from_ : Int) - (fileOf to_ : Int)).natAbs
  let rd := ((rankOf from_ : Int) - (rankOf to_ : Int)).natAbs
  fd ≤ 1 && rd ≤ 1

/-- The `KnightAttacks` table entry computed by Bitboard.cpp `init`. -/
def knightAttacks (sq : Nat) : Nat :=
  knightOffsets.foldl (fun acc off =>
    let to_ : Int := (sq : Int) + off
    if 0 ≤ to_ ∧ to_ < 64 ∧ isValidKnightMove sq to_.toNat then
      acc ||| squareBB to_.toNat
    else acc) 0

/-- The `KingAttacks` table entry computed by Bitboard.cpp `init`. -/
def kingAttacks (sq : Nat) : Nat :=
  kingOffsets.foldl (fun acc off =>
    let to_ : Int := (sq : Int) + off
    if 0 ≤ to_ ∧ to_ < 64 ∧ isValidKingMove sq to_.toNat then
      acc ||| squareBB to_.toNat
    else acc) 0

/-- Bitboard.h `pawnAttacks(Color, Square)`: the `PawnAttacks` table lookup. -/
def pawnAttacks (c sq : Nat) : Nat := pawnAttacksTable c sq

end BB

namespace Magic

/-- Magic.cpp rook directions (N, S, E, W). -/
def rookDirections : List Int := [8, -8, 1, -1]

/-- Magic.cpp bishop directions (NE, NW, SW, SE). -/
def bishopDirections : List Int := [9, 7, -7, -9]

/-- One step of the Magic.cpp `slidingAttacks` walk: the bounds check and the
direction-specific wrap checks, returning the next square if the walk
continues. -/
def rayStep (dir : Int) (cur : Int) : Option Int :=
  let to_ := cur + dir
  if to_ < 0 ∨ 64 ≤ to_ then none
  else if dir = 1 ∧ fileOf to_.toNat = 0 then none
  else if dir = -1 ∧ fileOf to_.toNat = 7 then none
  else if dir = 9 ∧ fileOf to_.toNat = 0 then none
  else if dir = 7 ∧ fileOf to_.toNat = 7 then none
  else if dir = -7 ∧ fileOf to_.toNat = 0 then none
  else if dir = -9 ∧ fileOf to_.toNat = 7 then none
  else some to_

/-- The squares visited in order by the `slidingAttacks` walk along `dir`
(ignoring blockers); a ray has at most 7 squares so fuel 8 suffices. -/
def raySquaresAux (dir : Int) : Nat → Int → List Nat
  | 0, _ => []
  | fuel + 1, cur =>
    match rayStep dir cur with
    | none => []
    | some to_ => to_.toNat :: raySquaresAux dir fuel to_

def raySquares (sq : Nat) (dir : Int) : List Nat := raySquaresAux dir 8 sq

/-- Accumulate `attacks |= squareBB(to); if (occupied & squareBB(to)) break;`
along a precomputed ray. -/
def rayWalk (occ : Nat) : List Nat → Nat
  | [] => 0
  | s :: rest =>
    BB.squareBB s ||| (if occ.testBit s then 0 else rayWalk occ rest)

/-- Magic.cpp `slidingAttacks`: union of the four direction walks. -/
def slidingAttacks (sq : Nat) (occ : Nat) (dirs : List Int) : Nat :=
  dirs.foldl (fun acc dir => acc ||| rayWalk occ (raySquares sq dir)) 0

/-- One step of the Magic.cpp `relevantOccupancy` walk: performs the same
wrap checks as `rayStep`, then reports whether the reached square is the
last (edge) square for this direction. -/
def maskAtEdge (dir : Int) (to_ : Int) : Bool :=
  let f := fileOf to_.toNat
  let r := rankOf to_.toNat
  (dir = 8 ∧ r = 7) ∨ (dir = -8 ∧ r = 0) ∨
  (dir = 1 ∧ f = 7) ∨ (dir = -1 ∧ f = 0) ∨
  (dir = 9 ∧ (r = 7 ∨ f = 7)) ∨ (dir = 7 ∧ (r = 7 ∨ f = 0)) ∨
  (dir = -7 ∧ (r = 0 ∨ f = 7)) ∨ (dir = -9 ∧ (r = 0 ∨ f = 0))

def maskWalkAux (dir : Int) : Nat → Int → Nat
  | 0, _ => 0
  | fuel + 1, cur =>
    match rayStep dir cur with
    | none => 0
    | some to_ =>
      if maskAtEdge dir to_ then 0
      else BB.squareBB to_.toNat ||| maskWalkAux dir fuel to_

/-- Magic.cpp `relevantOccupancy`: the blocker-relevant mask for a square. -/
def relevantOccupancy (sq : Nat) (dirs : List Int) : Nat :=
  dirs.foldl (fun acc dir => acc ||| maskWalkAux dir 8 sq) 0

/-- Magic.cpp `rookAttacks`: the table lookup
`RookMagics[sq].attacks[magicIndex(RookMagics[sq], occupied)]`.
`init` stores `slidingAttacks(sq, s, RookDirections)` at the magic index of
every subset `s` of the relevant-occupancy mask, so (with the published
collision-free magic constants) the lookup yields the sliding attacks of
the masked occupancy. -/
def rookAttacks (sq occ : Nat) : Nat :=
  slidingAttacks sq (occ &&& relevantOccupancy sq rookDirections) rookDirections

/-- Magic.cpp `bishopAttacks` (same table-lookup semantics as `rookAttacks`). -/
def bishopAttacks (sq occ : Nat) : Nat :=
  slidingAttacks sq (occ &&& relevantOccupancy sq bishopDirections) bishopDirections

/-- Magic.h `queenAttacks`. -/
def queenAttacks (sq occ : Nat) : Nat := rookAttacks sq occ ||| bishopAttacks sq occ

end Magic



namespace Zobrist

/-!
Zobrist.cpp seeds a `std::mt19937_64` with `0x123456789ABCDEF0` and draws
`uniform_int_distribution<HashKey>` values (the full-range distribution
returns the raw engine output) in the order: 12 x 64 piece-square keys,
8 en-passant file keys, 16 castling keys, one side-to-move key.
The mersenne_twister_engine below follows the C++ standard parameters of
`std::mt19937_64`; `keys` is the resulting 793-element table, proved equal
to the generator run by `keys_eq_mtOutputs`.
-/

/-- mt19937_64 upper mask (top 33 bits of a word). -/
def MT_UPPER : Nat := 0xFFFFFFFF80000000

/-- mt19937_64 lower mask (low 31 bits of a word). -/
def MT_LOWER : Nat := 0x7FFFFFFF

/-- mt19937_64 twist matrix constant `a`. -/
def MT_MATRIX_A : Nat := 0xB5026F5AA96619E9

/-- mt19937_64 seeding multiplier `f`. -/
def MT_INIT_MULT : Nat := 6364136223846793005

def mtSeedAux : Nat → Nat → List Nat → List Nat
  | 0, _, acc => acc.reverse
  | fuel + 1, i, acc =>
    let prev := acc.headD 0
    let next := (MT_INIT_MULT * (prev ^^^ (prev >>> 62)) + i) &&& mask64
    mtSeedAux fuel (i + 1) (next :: acc)

/-- mt19937_64 state after seeding: `x[0] = seed`,
`x[i] = f * (x[i-1] xor (x[i-1] >> 62)) + i (mod 2^64)`. -/
def mtSeedState (seed : Nat) : List Nat := mtSeedAux 311 1 [seed]

/-- The twist combination of a word with its successor. -/
def mtTwistVal (xi xnext : Nat) : Nat :=
  let x := (xi &&& MT_UPPER) ||| (xnext &&& MT_LOWER)
  (x >>> 1) ^^^ (if x &&& 1 = 1 then MT_MATRIX_A else 0)

def zipWith3 (f : Nat → Nat → Nat → Nat) : List Nat → List Nat → List Nat → List Nat
  | a :: as, b :: bs, c :: cs => f a b c :: zipWith3 f as bs cs
  | _, _, _ => []

/-- One twist pass over the 312-word state.  The reference loop updates in
place: `mt[i] = mt[(i+156) % 312] ^ twistVal(mt[i], mt[(i+1) % 312])` for
`i = 0..311`, where indices below `i` have already been rewritten.  Unrolled
into the three disjoint phases (i < 156 reads only old words; 156 ≤ i < 311
reads the word rewritten 156 steps earlier; i = 311 wraps around to the
rewritten word 0), which lets the state be rebuilt in one pass. -/
def mtTwist (st : List Nat) : List Nat :=
  let phaseA := zipWith3 (fun a b c => a ^^^ mtTwistVal b c)
    (st.drop 156) (st.take 156) (st.drop 1)
  let phaseB := zipWith3 (fun a b c => a ^^^ mtTwistVal b c)
    phaseA (st.drop 156) (st.drop 157)
  let last := phaseA.getD 155 0 ^^^ mtTwistVal (st.getD 311 0) (phaseA.getD 0 0)
  phaseA ++ phaseB.take 155 ++ [last]

/-- mt19937_64 output tempering. -/
def mtTemper (y0 : Nat) : Nat :=
  let y1 := y0 ^^^ ((y0 >>> 29) &&& 0x5555555555555555)
  let y2 := y1 ^^^ ((y1 <<< 17) &&& 0x71D67FFFEDA60000)
  let y3 := y2 ^^^ ((y2 <<< 37) &&& 0xFFF7EEE000000000)
  y3 ^^^ (y3 >>> 43)

/-- The first `count` outputs of mt19937_64 for a given seed (three twisted
blocks cover the 793 draws Zobrist::init makes). -/
def mtOutputs (seed count : Nat) : List Nat :=
  let s1 := mtTwist (mtSeedState seed)
  let s2 := mtTwist s1
  let s3 := mtTwist s2
  ((s1 ++ s2 ++ s3).take count).map mtTemper

/-- The 793 Zobrist keys drawn by Zobrist.cpp `init` (seed
`0x123456789ABCDEF0`), tabulated for cheap lookup; see `keys_eq_mtOutputs`. -/
def keys : List Nat := [
  4629415796178230021, 9863763647169120422, 570403635063972466, 16985743762141246882, 3911070478449881930,
  12764863381391314283, 533474637464949787, 182197846764106070, 12416827065416144499, 6593998981851357930,
  7296031730172884026, 8669136400544638059, 10639505980064030572, 9806199465828741535, 4625451733660868551,
  18125532232669005112, 8513601210573874447, 10728177000405569103, 7065253199263413926, 1658922233033883720,
  2549155715133471164, 1888446958402186836, 2613106151591522195, 18070068355940883245, 11913093489195973450,
  15724016202975246253, 5747625968711646352, 3354400771535774024, 14935823148685758072, 8032699784240191266,
  5539582418160952960, 17997610161165413001, 17029784544114760545, 12659914001463016416, 10011243786558509709,
  5273353154446144307, 955597355840942323, 5812547460228794078, 18230860457908803989, 7297328551893499578,
  8216922647484179455, 11640642071350156041, 11432737876206096402, 16705620976040969092, 12724198564760710349,
  5961982476264358164, 5197063062674845878, 12659627064690976839, 10970808077324695212, 816702334677565819,
  14017909017811283509, 16258993584537166776, 14563886817369887176, 599478714999481664, 12564565195409843594,
  9752939767411958764, 15685396371168763802, 11791663584182164197, 4223597778004261303, 18101148760761176842,
  7538103097148206820, 15053808721657518470, 8556920773399834428, 15839190369611368515, 17894826295533576518,
  4843836255735074027, 15787270771279464020, 12995396685387485137, 15450002433128520356, 11128018744512018443,
  4766495119095241293, 4524158318541186439, 14504689629135914094, 17475264092034033838, 3162886402504118867,
  5144823740762355485, 3722825046696155007, 11502547427954511352, 1592208124495789641, 16187884595554438235,
  7176485168966400682, 15938924713754878462, 10156572083783024472, 15099293414410293378, 4915535265281504419,
  14609315467793055649, 4564308902930753046, 13274066152280677740, 14874341381249249003, 3815195787724491061,
  2733079042913966522, 5473722163969568300, 13142986701513882777, 942257752825458446, 12658732526933336544,
  12446084703881314674, 15627963949532489845, 16171339957575856256, 17416069555090211318, 6507976776624097211,
  16564264400958247612, 6644253158305069083, 12397633041666607767, 1325660639338279060, 15708589486497669769,
  5495352804112986204, 14376450452855325366, 144059309438224342, 7402505032980742705, 396691240527793116,
  15683472109936609740, 9171359216956244720, 7749811047907741825, 14537662129967412526, 7691063535208973785,
  15330334685528278516, 5451667498636492183, 17133958532372019515, 12089276835795151492, 4375236412117705459,
  12603975101715098298, 15912528084322386189, 7635289183797362144, 3057676522372652362, 15373643455588097260,
  6782793283553185063, 3043322722184124761, 7965084486787743671, 11446011277184491470, 1731595915764830858,
  4549590010223830090, 9078768465489508993, 7776752168097732676, 12849611980186855195, 11694204904127796282,
  3907149009051904605, 16217229536227317654, 9925879092927300999, 6072267544766196491, 3655947620644992033,
  16908397343213900805, 9974955007637591198, 11314613582592808533, 14230547122167407309, 11037977396917337528,
  7157511029244791512, 10475243508935736416, 10012329416892138007, 12700714760792198520, 10097563895776243713,
  5463782559213537291, 14962815533390540212, 10470020239158742488, 11705842201879824453, 12633199195156153197,
  6363205787555478692, 13719537569199240735, 11782422751888734276, 14012927326386577898, 7201981781030304841,
  14800142403980300240, 18213644366897047897, 8023227226248538757, 2807809796647292643, 2439789968278790871,
  9554008724711253683, 11065156600715675327, 3009537558642756530, 15231056250477391175, 15722118493462289741,
  9651096283560444800, 2558734899588535288, 14985339050396243366, 6542953177096159931, 6183119593461738870,
  3156862534924960131, 8756164100995714326, 5468075678728120666, 3964829581253518439, 16517660290134160787,
  5108469113952804527, 403716492409819619, 4521909312394139620, 2455270864258593835, 2890618444500080993,
  1302722235413298036, 17427045483238204240, 6448049836793536407, 14721554007695011756, 16952018129540273097,
  17058741472129409734, 2143581956025628311, 18167519998689674514, 5940152351345107751, 10712667284497686950,
  6767156395928412654, 5538180625826499695, 1412721446455620716, 16536375305444567151, 12426674844291120733,
  15533915125715503849, 11592574785738249373, 9877972092967298433, 10720163743716866211, 17102528529957724327,
  17492699992388339767, 13775598504967650641, 18417306348164140787, 11026623251921216936, 2350543888829457424,
  10055797739767953976, 6091315622991651179, 7273033817038856122, 2748470489593386071, 5867493069164813434,
  842500287535630734, 10574478181726888079, 1100655130369898176, 16824312281992318642, 6975061841838933750,
  5541374703339286336, 7662204820820030989, 2580275327043924697, 7343031063293665942, 12778300346555963600,
  12252246635669627073, 10368262672601095761, 5059881509233080630, 11663391065025534998, 13525869424591830379,
  6300262391364827449, 15479292336418767287, 10507238131472583298, 4124932690392362696, 9923757023511514254,
  12121403770475657971, 7768893961268603315, 17728432482713227552, 10166521383313614539, 15065122383491883983,
  1655219615184613496, 10413827738974995181, 10095061158656457692, 14411445552416115291, 9457996133366241523,
  12445564127744408021, 16928900694828607870, 7908751861258486822, 14081041605368568632, 17250838254455331522,
  15365507989703591904, 670778993481830729, 14514021683381997225, 8924754909646772181, 3777687508962263064,
  1572606927014919106, 8391659068588566265, 16787799636274826190, 902838551387494152, 7157314486595616744,
  4955591224599716823, 7892782828607221664, 14454111148240090118, 18188389404720206149, 10934160793263969989,
  1396306030041582134, 14084318148752875883, 7705711908180406070, 5277708902950050821, 539094927613766033,
  11966903526862391633, 1281862121698695116, 7399965954254902973, 779541284630113818, 4622295150607816218,
  6030847471381331775, 3109308562366624204, 8246922632423249160, 10512456472222582583, 17175834368293882013,
  5140718119527620722, 8458850565780591064, 7804090564219679825, 9772420688506441441, 4422626565943985726,
  15988144526986729592, 615210588016949340, 7554261547555764593, 5474475605784144637, 12694139085608510115,
  8816126746631368027, 18023224931601823008, 917043527619368578, 13396961810363234768, 17965345947516328766,
  13372836751188951621, 15851503990308258614, 17804198305036442083, 2032517044428017138, 16690977533844538577,
  6592691868397887941, 12161075975378576466, 15961452299203602860, 13034355700625302283, 6542325940555118002,
  1427226789717299666, 15754603580025886807, 2099968172669511715, 1767815126103754027, 9538830820911567354,
  11031307318436763108, 6675241785295185201, 13364049858638545705, 10818654695650076935, 4383772018641837177,
  968057478424755803, 1191660438637330223, 2373479986772955234, 13649890646968507761, 3953842048690389652,
  14224578438455932311, 7109796586624540466, 11748657429979100821, 316450462397748216, 3065466643519631054,
  13777738047720418875, 8467498541668039199, 7201042385078662735, 6279490514816096863, 4622021902121725960,
  10472501317169417505, 2383773147085904430, 4292120467383108201, 2093773409953476477, 12499681063822022462,
  2646759826925383018, 12361950300497975577, 14324403167870514285, 1998478530871504066, 3265889459648836348,
  8103163189479836636, 6357345549485546006, 12206103264249601284, 14249608267578629950, 14117333210110532139,
  8699731256016772418, 6717734904051211916, 12033649476845423719, 7594211338136623317, 8372459483701281632,
  12754239468468373259, 1081209564133229983, 16076546421792256955, 9016323941169917695, 11403510395662275114,
  14972514236921681913, 13593766954401213793, 16358667068973509025, 18319385899889288377, 16885200809237762454,
  15599464889087807710, 17682861760604555712, 16177271637234343176, 7033076641957965362, 8601424675839422796,
  11245258658437589487, 4575549524899125071, 8475806563015002288, 17051806458242840238, 709770086537479646,
  6884359370253098988, 3003714992706953331, 5236720152943768867, 2137352897815629408, 8256913594477262545,
  11483577415668691800, 3518216719163350251, 3324256043807210376, 11250144489029417301, 7618884272114745866,
  8213495007700880606, 15138133802650535892, 3215049663125406254, 11435479286654636005, 10542596924535265218,
  336163526636086516, 14470521064831313741, 5091206185791489925, 2153320571233207696, 2765565817248689052,
  8818283584881941746, 4567055926054112059, 7107471769093848793, 2194853398777948260, 7313244158097325784,
  18138394937096645794, 1310546391065757677, 12539787076802254279, 13471378617764373867, 103173822881381725,
  12465475206111298030, 16239582093175885629, 14545984792686180426, 15014530952447378188, 9311098906563634573,
  15206638163198798241, 476018673554690422, 13093510597696824132, 18415450675716082344, 17238520302339457131,
  4336796518371635221, 14029008182186054514, 11869140194884628189, 3290925410110941005, 8136818702456865333,
  1645255469340959092, 7549219755835770631, 12801806317883279339, 6913987024969180755, 12717812627430327,
  11479054143588561403, 1992174149136378420, 4332202512039302355, 6896242625112339805, 129299854646757406,
  6786612214739815220, 221296131565100636, 9973331834124175034, 8001094910087902648, 2346128308250738663,
  5125432132722462341, 12027137473152784431, 15212469271965913714, 6686863764119772276, 11332659327205336461,
  1282493203009205123, 4884609707182683754, 17311963639193125269, 14822261643805109170, 2800702653777486694,
  1972678326679228372, 5063246786105952772, 8845071853005025293, 13643622939511819933, 3587627424485109909,
  713525851019322903, 10027923723189095490, 4075688301505001364, 7417844918381278816, 2635964180779672026,
  8608129934656315310, 16537510986279760900, 12788639162258023839, 129389428487852515, 2530134693235148223,
  6621969957198930795, 7526097933728456708, 16868625929292698159, 11161191752864517396, 14894327031887816181,
  16053038397644097951, 5497178972696062, 538182436109910755, 6227075592599262058, 13821778492887283118,
  10127151681880431424, 5362996027348251709, 8667577582866665472, 12823300265698552551, 3450966274797913317,
  10530670464970695369, 11851566806420511848, 15032994669699363905, 16988829989001880313, 6061181518477041295,
  2782053082690149747, 12077866671403574474, 16349182395176817605, 9004564898062495220, 13323737724689039456,
  1894084991229029416, 2609614524287376260, 8155110680532534463, 16509945291913822796, 894618537284812480,
  15595339126548945757, 6303651918414513893, 15752998089504958491, 8917901354487383311, 9101937540907619875,
  12748721107322384991, 9956322894058622989, 4882616981521806550, 18145862548754899834, 13918669183790714269,
  5089462884567208142, 1786766225607417998, 7701714291149243525, 11517494081648973287, 16615482118216679635,
  5655750148964366598, 9147188705507348502, 4446106765002883672, 320861930115533577, 11153725573338949486,
  7078590996614477057, 9270008604701856263, 12133400932496861608, 11687523064516629468, 15104413672306042660,
  6545423041185914275, 5300476540520460124, 4867735598023926444, 14961090812502131434, 16019059690669167435,
  4565921622611475908, 3920113455261052103, 14481179812963807947, 11518173030751536701, 16853333021303563834,
  9659277462901159399, 5810794144576575008, 15749240837372715128, 6875718967808037543, 289303019464838054,
  17106413273768889552, 4807551087706781995, 11216957000265256640, 107773958545967695, 10548011676126513177,
  11002486881139342167, 16582909572685311505, 17569124603127903253, 18351784951343441539, 13301534124160563710,
  7273562472398522606, 14996935745301644146, 18366142783847161684, 9623301382490292759, 4468670328605072475,
  3935416529924193073, 12948021447109589363, 17604196497810751952, 17438823882410083990, 9458500504043828800,
  15361020303097203986, 1004153337400448030, 4835022085925526950, 8460713337197369876, 9935382291929710664,
  14775072550106458884, 8928072125067320951, 4534954110572262586, 14179770535249401060, 16315452610315423637,
  15955135629617864546, 2719056028762304245, 6435988295284910947, 5277405761068252960, 17621946207056383290,
  18407132682887792090, 10982315569780301243, 17155057596998372658, 3261704785578035966, 9271455713475481310,
  2386699954106677393, 9254738280216724303, 6834731386685198254, 12618989808121250389, 14942666431208884025,
  14603510630393078675, 4162411375016077425, 13019564184547274452, 5050727996637104505, 843833148356617662,
  14690432247094713749, 162405348944537342, 13821049336679199471, 14442164412852510270, 13918720256267750781,
  14957975436736619987, 10083106291413807607, 15124097364715704684, 18445462286799581574, 12891723022393012216,
  2543109002628963731, 8681482449773145499, 11884780369627485961, 3716359111451683877, 7757438770312267170,
  6704802205669278567, 3531527489872657526, 12647238161052096809, 7033581151302500484, 2586154642792150022,
  18080849893029257259, 12299414704639340696, 16590519145075067186, 8961346231693164800, 14537884679136911271,
  13153187353282266452, 5140405608034311324, 216314927940126857, 4713369344307499927, 12656407289956402496,
  6136951478408591469, 5728991897990290604, 8337093388751186953, 13510594676484121844, 15411207933058255328,
  997944276535268848, 13865838428170718727, 4984689692302068393, 1368670119329183858, 18154120137651193783,
  3155112825715499752, 2717719359872893444, 10007615563384025767, 2103511197406518262, 3318231286393450382,
  17237511104252945041, 1299133543013022199, 850297865125183759, 6209185609534552237, 6107591008952029738,
  9389385228927743015, 16595749877951481939, 2583437941549113191, 12997576861476651146, 18156516681887163552,
  4975298465173999231, 13637462860910970096, 14264572807674406036, 7991756017839197500, 787918452869237786,
  17992359020624953488, 14115723131577294257, 8218354231853521383, 10136903939200465444, 107903590215282036,
  10220369993866508518, 8316348737853047194, 6303774405201722588, 6880240137164333321, 15057555834753373801,
  16990983050057901788, 8287963506325349862, 17430308599034842071, 18097160003292920183, 691049909825134341,
  8998979048389531413, 8981918768335105731, 17629892199773970121, 7142074488884400830, 8560783134047151258,
  17629223595829318077, 4421893908466815736, 15891247922006912694, 9974987195474441013, 15957683305278161782,
  3311527763348013536, 9315165960988281192, 14319214625121009057, 13760750017256451208, 11663311932019788565,
  395318864234720119, 5475268643201911635, 6871217146332532146, 13357948229956886930, 18298667884764364041,
  8046105706447764826, 13514142264413191269, 11535526646298996415, 12748872024488224857, 3526703511714869116,
  3016571731673140492, 13085586565807484807, 12717504957395038350, 620636495593136288, 4233784828829563740,
  4939535851152250986, 16957195402004011094, 11692568047161631875, 12238732785469743016, 14512754593407345096,
  1613254562079358, 16345042375711498498, 11942734473803935044, 10003126620436599231, 6827754492741456859,
  1184951731871085442, 18411500947323449854, 12600302869891507901, 16587485511072956640, 16402457747881714534,
  16905768040356918346, 12984139336123819959, 9075209641394978944, 15996051295148987053, 17576223501918233718,
  16818765334603570895, 13005054534948549462, 3331671224166822974, 1597133217756163657, 10420358702290080844,
  13330166428263805243, 11664665196977063046, 953357884163215203, 12544212270316813113, 13783096841592689590,
  12709442851853096452, 8193809697196336794, 16906972603753809686, 17642546391766292396, 8973659367224072887,
  4615131409227501391, 12906782601123581020, 235813808065198180, 5099502883591578297, 8485613684212160232,
  6544741258658334618, 9937441940549090622, 3309989381092974088, 2658364325707365317, 13413394385647541778,
  9347801101317392031, 5762486533269188893, 11616616172351149847, 16843550586502022105, 5478636326693400929,
  2643762488827008905, 11303691882874042050, 9559984310489555811, 7767094091615199470, 5654536071842826717,
  13694615497971255503, 11524910186770942949, 5564740770117475003, 13726699436803187166, 1388440054352687067,
  208274661440802973, 13971330623045353103, 1277988380795146381, 13894107751311777275, 9042442887342532378,
  13556343408187043162, 17860892036917960281, 16936244977210009898, 2623377708060632289, 18071597823614908085,
  2698814294386510540, 7717320232531430144, 7258159633754171507, 14481454443639285905, 16564329951555809739,
  5273122687577247372, 17111940339985922339, 16789838784432351255, 9863957586933309706, 6203398999561602462,
  17112049366679761694, 15530042260141768268, 17154895646401966001, 3984867319994807868, 13689913318180732947,
  17107780751633777577, 4070023987203915353, 10564686486139976094, 11986296319102485515, 13215638998552289197,
  1726432493228030571, 16447208550612273117, 2951582017708978049, 5051237932900840008, 12279759663480923149,
  7406548855558189728, 14072673969456364838, 15988296285854723640, 12530289801829117681, 8350254786537495198,
  4916467929701019682, 6617763674519277490, 7326545063941765992, 14150082509342488664, 14857843291681360964,
  12499084291216429205, 16832638356162446788, 13105546492114674348, 815824094119878844, 12414675066359531251,
  4241606721501268275, 8351756701412484838, 15122389959946930637]

/-- Zobrist.cpp `psq[pc][sq]` (draws 0..767, row-major). -/
def psq (pc sq : Nat) : Nat := keys.getD (pc * 64 + sq) 0

/-- Zobrist.cpp `enpassant[file]` (draws 768..775). -/
def enpassant (file : Nat) : Nat := keys.getD (768 + file) 0

/-- Zobrist.cpp `castling[cr]` (draws 776..791). -/
def castlingKey (cr : Nat) : Nat := keys.getD (776 + cr) 0

/-- Zobrist.cpp `sideToMove` (draw 792). -/
def sideToMove : Nat := keys.getD 792 0

end Zobrist


/-- Position.h `StateInfo`: the record pushed by make and popped by unmake. -/
structure StateInfo where
  move : Nat
  captured : Nat
  castling : Nat
  epSquare : Nat
  halfmoves : Int
  hash : Nat
deriving DecidableEq, Repr

/-- Position.h data members.  `byType`/`byColor`/`board` are the fixed-size
arrays (lengths 6/2/64); `history` is the state stack with the most recent
record first. -/
structure Position where
  byType : List Nat
  byColor : List Nat
  board : List Nat
  stm : Nat
  castling : Nat
  epSquare : Nat
  halfmoves : Int
  fullmoves : Int
  positionHash : Nat
  history : List StateInfo
deriving DecidableEq, Repr

namespace Position

/-- Position.cpp `clear`. -/
def clearPos : Position where
  byType := List.replicate 6 0
  byColor := List.replicate 2 0
  board := List.replicate 64 NO_PIECE
  stm := WHITE
  castling := NO_CASTLING
  epSquare := NO_SQUARE
  halfmoves := 0
  fullmoves := 1
  positionHash := 0
  history := []

/-- Position.h `pieces(Color)`. -/
def piecesC (pos : Position) (c : Nat) : Nat := pos.byColor.getD c 0

/-- Position.h `pieces(PieceType)`. -/
def piecesT (pos : Position) (pt : Nat) : Nat := pos.byType.getD pt 0

/-- Position.h `pieces(Color, PieceType)`. -/
def piecesCT (pos : Position) (c pt : Nat) : Nat :=
  pos.byColor.getD c 0 &&& pos.byType.getD pt 0

/-- Position.h `occupied`. -/
def occupied (pos : Position) : Nat := pos.byColor.getD 0 0 ||| pos.byColor.getD 1 0

/-- Position.h `pieceAt`. -/
def pieceAt (pos : Position) (sq : Nat) : Nat := pos.board.getD sq NO_PIECE

/-- Position.cpp `putPiece`. -/
def putPiece (pos : Position) (pc sq : Nat) : Position :=
  let c := colorOf pc
  let pt := typeOf pc
  { pos with
    byType := pos.byType.set pt (pos.byType.getD pt 0 ||| BB.squareBB sq)
    byColor := pos.byColor.set c (pos.byColor.getD c 0 ||| BB.squareBB sq)
    board := pos.board.set sq pc
    positionHash := pos.positionHash ^^^ Zobrist.psq pc sq }

/-- Position.cpp `removePiece`. -/
def removePiece (pos : Position) (sq : Nat) : Position :=
  let pc := pos.board.getD sq NO_PIECE
  if pc == NO_PIECE then pos
  else
    let c := colorOf pc
    let pt := typeOf pc
    { pos with
      byType := pos.byType.set pt (pos.byType.getD pt 0 &&& (mask64 ^^^ BB.squareBB sq))
      byColor := pos.byColor.set c (pos.byColor.getD c 0 &&& (mask64 ^^^ BB.squareBB sq))
      positionHash := pos.positionHash ^^^ Zobrist.psq pc sq
      board := pos.board.set sq NO_PIECE }

/-- Position.cpp `movePiece`. -/
def movePiece (pos : Position) (from_ to_ : Nat) : Position :=
  let pc := pos.board.getD from_ NO_PIECE
  putPiece (removePiece pos from_) pc to_

/-- Update the `captured` field of the most recent history record
(the C++ `history.back().captured = ...`). -/
def setTopCaptured (pos : Position) (pc : Nat) : Position :=
  { pos with history := match pos.history with
      | s :: rest => { s with captured := pc } :: rest
      | [] => [] }

/-- The `captured` field of the most recent history record
(the C++ `history.back().captured`). -/
def topCaptured (pos : Position) : Nat :=
  match pos.history with
  | s :: _ => s.captured
  | [] => NO_PIECE

/-- Position.cpp `makeMove`.  Statements are mirrored in source order; the
state record is pushed first and its `captured` field updated from within
the per-move-type dispatch exactly as the C++ does. -/
def makeMove (pos : Position) (move : Nat) : Position :=
  let st : StateInfo :=
    { move := move, captured := NO_PIECE, castling := pos.castling,
      epSquare := pos.epSquare, halfmoves := pos.halfmoves, hash := pos.positionHash }
  let p : Position := { pos with history := st :: pos.history }
  let from_ := fromSquare move
  let to_ := toSquare move
  let pc := p.board.getD from_ NO_PIECE
  let pt := typeOf pc
  let us := p.stm
  -- remove old en passant and castling from hash
  let p : Position := if p.epSquare != NO_SQUARE then
      { p with positionHash := p.positionHash ^^^ Zobrist.enpassant (fileOf p.epSquare) }
    else p
  let p : Position := { p with positionHash := p.positionHash ^^^ Zobrist.castlingKey p.castling }
  let p : Position := { p with epSquare := NO_SQUARE }
  let p : Position := { p with halfmoves := p.halfmoves + 1 }
  let mt := moveType move
  let p :=
    if mt == NORMAL_MOVE then
      let p : Position := if p.board.getD to_ NO_PIECE != NO_PIECE then
          let p : Position := setTopCaptured p (p.board.getD to_ NO_PIECE)
          let p : Position := removePiece p to_
          { p with halfmoves := 0 }
        else p
      let p : Position := if pt == PAWN then { p with halfmoves := 0 } else p
      let p : Position := if pt == PAWN && ((from_ : Int) - (to_ : Int)).natAbs == 16 then
          { p with epSquare := ((from_ : Int) + (if us == WHITE then 8 else -8)).toNat }
        else p
      movePiece p from_ to_
    else if mt == PROMOTION then
      let p : Position := if p.board.getD to_ NO_PIECE != NO_PIECE then
          let p : Position := setTopCaptured p (p.board.getD to_ NO_PIECE)
          removePiece p to_
        else p
      let p : Position := removePiece p from_
      let p : Position := putPiece p (makePiece us (promotionType move)) to_
      { p with halfmoves := 0 }
    else if mt == EN_PASSANT then
      let capturedSq := ((to_ : Int) - (if us == WHITE then 8 else -8)).toNat
      let p : Position := setTopCaptured p (p.board.getD capturedSq NO_PIECE)
      let p : Position := removePiece p capturedSq
      let p : Position := movePiece p from_ to_
      { p with halfmoves := 0 }
    else -- CASTLING
      let p : Position := movePiece p from_ to_
      if to_ > from_ then
        let rookFrom := makeSquare 7 (rankOf from_)
        let rookTo := makeSquare 5 (rankOf from_)
        movePiece p rookFrom rookTo
      else
        let rookFrom := makeSquare 0 (rankOf from_)
        let rookTo := makeSquare 3 (rankOf from_)
        movePiece p rookFrom rookTo
  -- castling rights update
  let p :=
    if pt == KING then
      if us == WHITE then { p with castling := p.castling &&& (15 ^^^ (WHITE_OO ||| WHITE_OOO)) }
      else { p with castling := p.castling &&& (15 ^^^ (BLACK_OO ||| BLACK_OOO)) }
    else p
  let p :=
    if pt == ROOK || topCaptured p != NO_PIECE then
      let p : Position := if from_ == 0 || to_ == 0 then { p with castling := p.castling &&& (15 ^^^ WHITE_OOO) } else p
      let p : Position := if from_ == 7 || to_ == 7 then { p with castling := p.castling &&& (15 ^^^ WHITE_OO) } else p
      let p : Position := if from_ == 56 || to_ == 56 then { p with castling := p.castling &&& (15 ^^^ BLACK_OOO) } else p
      if from_ == 63 || to_ == 63 then { p with castling := p.castling &&& (15 ^^^ BLACK_OO) } else p
    else p
  let p : Position := { p with positionHash := p.positionHash ^^^ Zobrist.castlingKey p.castling }
  let p : Position := if p.epSquare != NO_SQUARE then
      { p with positionHash := p.positionHash ^^^ Zobrist.enpassant (fileOf p.epSquare) }
    else p
  let p : Position := { p with stm := flipColor p.stm }
  let p : Position := if p.stm == WHITE then { p with fullmoves := p.fullmoves + 1 } else p
  { p with positionHash := p.positionHash ^^^ Zobrist.sideToMove }

/-- Position.cpp `unmakeMove`.  Note that the saved hash is restored first
and the subsequent undo piece operations XOR their piece-square keys into
it again, exactly as the C++ does. -/
def unmakeMove (pos : Position) : Position :=
  match pos.history with
  | [] => pos
  | st :: rest =>
    let p : Position := { pos with history := rest }
    let move := st.move
    let from_ := fromSquare move
    let to_ := toSquare move
    let mt := moveType move
    let p : Position := { p with stm := flipColor p.stm }
    let us := p.stm
    let p : Position := { p with castling := st.castling, epSquare := st.epSquare, halfmoves := st.halfmoves, positionHash := st.hash }
    let p : Position := if p.stm == BLACK then { p with fullmoves := p.fullmoves - 1 } else p
    if mt == NORMAL_MOVE then
      let pc := p.board.getD to_ NO_PIECE
      let p : Position := removePiece p to_
      let p : Position := putPiece p pc from_
      if st.captured != NO_PIECE then putPiece p st.captured to_ else p
    else if mt == PROMOTION then
      let p : Position := removePiece p to_
      let p : Position := putPiece p (makePiece us PAWN) from_
      if st.captured != NO_PIECE then putPiece p st.captured to_ else p
    else if mt == EN_PASSANT then
      let pc := p.board.getD to_ NO_PIECE
      let p : Position := removePiece p to_
      let p : Position := putPiece p pc from_
      let capturedSq := ((to_ : Int) - (if us == WHITE then 8 else -8)).toNat
      putPiece p st.captured capturedSq
    else -- CASTLING
      let king := p.board.getD to_ NO_PIECE
      let p : Position := removePiece p to_
      let p : Position := putPiece p king from_
      if to_ > from_ then
        let rookFrom := makeSquare 7 (rankOf from_)
        let rookTo := makeSquare 5 (rankOf from_)
        let rook := p.board.getD rookTo NO_PIECE
        let p : Position := removePiece p rookTo
        putPiece p rook rookFrom
      else
        let rookFrom := makeSquare 0 (rankOf from_)
        let rookTo := makeSquare 3 (rankOf from_)
        let rook := p.board.getD rookTo NO_PIECE
        let p : Position := removePiece p rookTo
        putPiece p rook rookFrom

/-- Position.cpp `makeNullMove`. -/
def makeNullMove (pos : Position) : Position :=
  let st : StateInfo :=
    { move := 0, captured := NO_PIECE, castling := pos.castling,
      epSquare := pos.epSquare, halfmoves := pos.halfmoves, hash := pos.positionHash }
  let p : Position := { pos with history := st :: pos.history }
  let p : Position := if p.epSquare != NO_SQUARE then
      { p with positionHash := p.positionHash ^^^ Zobrist.enpassant (fileOf p.epSquare) }
    else p
  let p : Position := { p with epSquare := NO_SQUARE }
  let p : Position := { p with stm := flipColor p.stm }
  let p : Position := { p with positionHash := p.positionHash ^^^ Zobrist.sideToMove }
  let p : Position := { p with halfmoves := p.halfmoves + 1 }
  if p.stm == WHITE then { p with fullmoves := p.fullmoves + 1 } else p

/-- Position.cpp `unmakeNullMove`. -/
def unmakeNullMove (pos : Position) : Position :=
  match pos.history with
  | [] => pos
  | st :: rest =>
    let p : Position := { pos with history := rest }
    let p : Position := { p with stm := flipColor p.stm }
    let p : Position := { p with castling := st.castling, epSquare := st.epSquare, halfmoves := st.halfmoves, positionHash := st.hash }
    if p.stm == BLACK then { p with fullmoves := p.fullmoves - 1 } else p

/-- Whitespace per `std::isspace` in the default locale, as used by
`istringstream` extraction. -/
def isSpaceChar (c : Char) : Bool :=
  c == ' ' || c == '\t' || c == '\n' || c == '\x0b' || c == '\x0c' || c == '\r'

/-- One `istringstream >> std::string` extraction: skip whitespace, then
take characters up to the next whitespace.  Returns the token and the rest
of the stream. -/
def extractToken (s : List Char) : List Char × List Char :=
  let s1 := s.dropWhile isSpaceChar
  (s1.takeWhile (fun c => !isSpaceChar c), s1.dropWhile (fun c => !isSpaceChar c))

/-- One `istringstream >> int` extraction: skip whitespace, optional sign,
then a maximal digit run; a failed extraction stores 0 (C++11 semantics).
(For ill-formed streams where the C++ would leave the variable
uninitialized, 0 is as good a model as any.) -/
def extractInt (s : List Char) : Int × List Char :=
  let s1 := s.dropWhile isSpaceChar
  let (neg, s2) : Bool × List Char :=
    match s1 with
    | '-' :: rest => (true, rest)
    | '+' :: rest => (false, rest)
    | _ => (false, s1)
  let digits := s2.takeWhile Char.isDigit
  let rest := s2.dropWhile Char.isDigit
  let n : Nat := digits.foldl (fun acc c => acc * 10 + (c.toNat - '0'.toNat)) 0
  (if neg then -(n : Int) else (n : Int), rest)

/-- The piece-placement `switch` of Position.cpp `setFromFEN`: the piece
type encoded by a lower-cased placement character, or `none` for the
`default: return false` case. -/
def pieceTypeOfChar (c : Char) : Option Nat :=
  if c == 'p' then some PAWN
  else if c == 'n' then some KNIGHT
  else if c == 'b' then some BISHOP
  else if c == 'r' then some ROOK
  else if c == 'q' then some QUEEN
  else if c == 'k' then some KING
  else none

/-- `isupper` over ASCII. -/
def isUpperChar (c : Char) : Bool := 'A' ≤ c && c ≤ 'Z'

/-- `tolower` over ASCII. -/
def toLowerChar (c : Char) : Char :=
  if isUpperChar c then Char.ofNat (c.toNat + 32) else c

/-- The placement loop of Position.cpp `setFromFEN`.  `rank`/`file` are the
C++ `int` counters (they can leave 0..7 on malformed input, in which case
the C++ writes out of bounds; the model clamps the computed square index at
0, any behaviour being acceptable there).  Returns `false` paired with the
partially populated position when an illegal character is hit. -/
def parsePlacement : List Char → Int → Int → Position → Bool × Position
  | [], _, _, pos => (true, pos)
  | ch :: rest, rank, file, pos =>
    if ch == '/' then parsePlacement rest (rank - 1) 0 pos
    else if ch.isDigit then parsePlacement rest rank (file + (ch.toNat - '0'.toNat : Nat)) pos
    else
      let c := if isUpperChar ch then WHITE else BLACK
      match pieceTypeOfChar (toLowerChar ch) with
      | none => (false, pos)
      | some pt =>
        parsePlacement rest rank (file + 1)
          (putPiece pos (makePiece c pt) (rank * 8 + file).toNat)

/-- Position.cpp `setFromFEN`.  `clear()` runs first, so the result does not
depend on the prior state and the function is modelled without a position
argument.  On failure the partially parsed position is returned, exactly as
the C++ leaves `*this`. -/
def setFromFEN (fen : String) : Bool × Position :=
  let s0 := fen.toList
  let tok1 := extractToken s0
  let position := tok1.1
  let tok2 := extractToken tok1.2
  let turn := tok2.1
  let tok3 := extractToken tok2.2
  let castlingStr := tok3.1
  let tok4 := extractToken tok3.2
  let epStr := tok4.1
  let int1 := extractInt tok4.2
  let halfmoveStr := int1.1
  let int2 := extractInt int1.2
  let fullmoveStr := int2.1
  let pp := parsePlacement position 7 0 clearPos
  if pp.1 then
    let p := pp.2
    let p : Position := { p with stm := if turn == ['w'] then WHITE else BLACK }
    let castling := castlingStr.foldl (fun acc ch =>
      if ch == 'K' then acc ||| WHITE_OO
      else if ch == 'Q' then acc ||| WHITE_OOO
      else if ch == 'k' then acc ||| BLACK_OO
      else if ch == 'q' then acc ||| BLACK_OOO
      else acc) NO_CASTLING
    let p : Position := { p with castling := castling }
    let p : Position := { p with epSquare := stringToSquare epStr }
    let p : Position := { p with halfmoves := halfmoveStr, fullmoves := fullmoveStr }
    let p : Position := if p.stm == BLACK then
        { p with positionHash := p.positionHash ^^^ Zobrist.sideToMove }
      else p
    let p : Position := { p with positionHash := p.positionHash ^^^ Zobrist.castlingKey p.castling }
    let p : Position := if p.epSquare != NO_SQUARE then
        { p with positionHash := p.positionHash ^^^ Zobrist.enpassant (fileOf p.epSquare) }
      else p
    (true, p)
  else (false, pp.2)

/-- Position.h `STARTING_FEN`. -/
def STARTING_FEN : String := "rnbqkbnr/pppppppp/8/8/8/8/PPPPPPPP/RNBQKBNR w KQkq - 0 1"

/-- Position.cpp `isAttacked`. -/
def isAttacked (pos : Position) (sq attackerColor : Nat) : Bool :=
  if BB.pawnAttacks (flipColor attackerColor) sq &&& piecesCT pos attackerColor PAWN != 0 then true
  else if BB.knightAttacks sq &&& piecesCT pos attackerColor KNIGHT != 0 then true
  else if BB.kingAttacks sq &&& piecesCT pos attackerColor KING != 0 then true
  else
    let occ := occupied pos
    if Magic.bishopAttacks sq occ &&&
        (piecesCT pos attackerColor BISHOP ||| piecesCT pos attackerColor QUEEN) != 0 then true
    else if Magic.rookAttacks sq occ &&&
        (piecesCT pos attackerColor ROOK ||| piecesCT pos attackerColor QUEEN) != 0 then true
    else false

/-- Position.cpp `inCheck`. -/
def inCheck (pos : Position) : Bool :=
  isAttacked pos (BB.lsb (piecesCT pos pos.stm KING)) (flipColor pos.stm)

/-- Position.cpp `attacksTo`: attackers of `sq` of both colors. -/
def attacksTo (pos : Position) (sq : Nat) : Nat :=
  let occ := occupied pos
  let a1 := (BB.pawnAttacks WHITE sq &&& piecesCT pos BLACK PAWN) |||
            (BB.pawnAttacks BLACK sq &&& piecesCT pos WHITE PAWN)
  let a2 := a1 ||| (BB.knightAttacks sq &&& (piecesCT pos WHITE KNIGHT ||| piecesCT pos BLACK KNIGHT))
  let a3 := a2 ||| (BB.kingAttacks sq &&& (piecesCT pos WHITE KING ||| piecesCT pos BLACK KING))
  let bishopAttackers := piecesCT pos WHITE BISHOP ||| piecesCT pos BLACK BISHOP |||
                         piecesCT pos WHITE QUEEN ||| piecesCT pos BLACK QUEEN
  let a4 := a3 ||| (Magic.bishopAttacks sq occ &&& bishopAttackers)
  let rookAttackers := piecesCT pos WHITE ROOK ||| piecesCT pos BLACK ROOK |||
                       piecesCT pos WHITE QUEEN ||| piecesCT pos BLACK QUEEN
  a4 ||| (Magic.rookAttacks sq occ &&& rookAttackers)

/-- Position.cpp `materialCount`. -/
def materialCount (pos : Position) (c : Nat) : Nat :=
  BB.popCount (piecesCT pos c PAWN) * 100 +
  BB.popCount (piecesCT pos c KNIGHT) * 320 +
  BB.popCount (piecesCT pos c BISHOP) * 330 +
  BB.popCount (piecesCT pos c ROOK) * 500 +
  BB.popCount (piecesCT pos c QUEEN) * 900

end Position

namespace Position

/-- Position.cpp `see` piece value table (P, N, B, R, Q, K). -/
def pieceValuesI (pt : Nat) : Int := ([100, 320, 330, 500, 900, 20000] : List Int).getD pt 0

/-- The final gain minimax of Position.cpp `see`:
`while (--depth) gain[depth-1] = -max(-gain[depth-1], gain[depth]);`
run right-to-left over `gain[0..d-1]` (the last written entry `gain[d]` is
never read by the loop), i.e. `g0 -> N(g0, N(g1, ... N(g_{d-2}, g_{d-1})))`
with `N(a,b) = -max(-a,b)`. -/
def seeMinimax : List Int → Int
  | [] => 0
  | [x] => x
  | x :: xs => -(max (-x) (seeMinimax xs))

/-- The `do { ... } while (fromSet)` exchange loop of Position.cpp `see`.
Gains are accumulated most-recent-first; one fuel unit per iteration
(the C++ bounds the sequence by its `gain[32]` array; fuel 33 covers every
sequence the board can produce). -/
def seeLoop (pos : Position) (to_ mayXray : Nat) :
    Nat → Nat → Nat → Nat → Nat → Nat → List Int → List Int
  | 0, _, _, _, _, _, gains => gains
  | fuel + 1, fromSet, occ, attackers, side, attackerType, gains =>
    let gPrev := gains.headD 0
    let g1 : Int := pieceValuesI attackerType - gPrev
    let gains := g1 :: gains
    if max (-gPrev) g1 < 0 then gains
    else
      let attackers := attackers ^^^ fromSet
      let occ := occ ^^^ fromSet
      let attackers :=
        if (fromSet &&& mayXray) != 0 then
          (attackers |||
            ((Magic.bishopAttacks to_ occ &&&
              (piecesCT pos WHITE BISHOP ||| piecesCT pos BLACK BISHOP |||
               piecesCT pos WHITE QUEEN ||| piecesCT pos BLACK QUEEN)) &&& occ)) |||
            ((Magic.rookAttacks to_ occ &&&
              (piecesCT pos WHITE ROOK ||| piecesCT pos BLACK ROOK |||
               piecesCT pos WHITE QUEEN ||| piecesCT pos BLACK QUEEN)) &&& occ)
        else attackers
      let side := flipColor side
      let attackers := attackers &&& occ
      match (List.range 6).find? (fun pt => (attackers &&& piecesCT pos side pt) != 0) with
      | none => gains
      | some pt =>
        let fs := attackers &&& piecesCT pos side pt
        let fromSet := BB.squareBB (BB.lsb fs)
        seeLoop pos to_ mayXray fuel fromSet occ attackers side pt gains

/-- Position.cpp `see`: static exchange evaluation. -/
def see (pos : Position) (move : Nat) : Int :=
  let from_ := fromSquare move
  let to_ := toSquare move
  let attacker := pos.board.getD from_ NO_PIECE
  let captured := pos.board.getD to_ NO_PIECE
  let captured :=
    if moveType move == EN_PASSANT then makePiece (flipColor (colorOf attacker)) PAWN
    else captured
  if captured == NO_PIECE && moveType move != EN_PASSANT then 0
  else
    let mayXray :=
      piecesCT pos WHITE PAWN ||| piecesCT pos BLACK PAWN |||
      piecesCT pos WHITE BISHOP ||| piecesCT pos BLACK BISHOP |||
      piecesCT pos WHITE ROOK ||| piecesCT pos BLACK ROOK |||
      piecesCT pos WHITE QUEEN ||| piecesCT pos BLACK QUEEN
    let fromSet := BB.squareBB from_
    let occ := occupied pos
    let attackers := attacksTo pos to_ &&& occ
    let side := colorOf attacker
    let attackerType := typeOf attacker
    let gains := seeLoop pos to_ mayXray 33 fromSet occ attackers side attackerType
      [pieceValuesI (typeOf captured)]
    seeMinimax (gains.drop 1).reverse

end Position

namespace MoveGen

open Position

/-- MoveGen.cpp `generatePawnMoves<Us>` for one pawn: the template colour
becomes a runtime parameter carrying both specialisations. -/
def generatePawnMoves (pos : Position) (us from_ : Nat) : List Nat :=
  let them := if us == WHITE then BLACK else WHITE
  let up : Int := if us == WHITE then 8 else -8
  let promotionRank := if us == WHITE then 6 else 1
  let to_ := ((from_ : Int) + up).toNat
  let occ := occupied pos
  let pushes :=
    if !occ.testBit to_ then
      if rankOf from_ == promotionRank then
        [mkPromotion from_ to_ QUEEN, mkPromotion from_ to_ ROOK,
         mkPromotion from_ to_ BISHOP, mkPromotion from_ to_ KNIGHT]
      else
        mkMove from_ to_ ::
          (let startRank := if us == WHITE then 1 else 6
           if rankOf from_ == startRank then
             let doubleTo := ((from_ : Int) + 2 * up).toNat
             if !occ.testBit doubleTo then [mkMove from_ doubleTo] else []
           else [])
    else []
  let attacks := BB.pawnAttacks us from_
  let captures := (BB.squaresOf (attacks &&& piecesC pos them)).flatMap (fun t =>
    if rankOf from_ == promotionRank then
      [mkPromotion from_ t QUEEN, mkPromotion from_ t ROOK,
       mkPromotion from_ t BISHOP, mkPromotion from_ t KNIGHT]
    else [mkMove from_ t])
  let epMoves :=
    if pos.epSquare != NO_SQUARE && (attacks &&& BB.squareBB pos.epSquare) != 0 then
      [mkEnPassant from_ pos.epSquare]
    else []
  pushes ++ captures ++ epMoves

/-- MoveGen.cpp `generatePieceMoves<Pt>`: attack lookups masked to non-own
squares, iterated in pop-lsb order. -/
def generatePieceMoves (pos : Position) (pt us pieceBB : Nat) : List Nat :=
  let targets := mask64 ^^^ piecesC pos us
  let occ := occupied pos
  (BB.squaresOf pieceBB).flatMap (fun from_ =>
    let attacks :=
      if pt == KNIGHT then BB.knightAttacks from_
      else if pt == BISHOP then Magic.bishopAttacks from_ occ
      else if pt == ROOK then Magic.rookAttacks from_ occ
      else if pt == QUEEN then Magic.queenAttacks from_ occ
      else BB.kingAttacks from_
    (BB.squaresOf (attacks &&& targets)).map (mkMove from_))

/-- MoveGen.cpp `generateCastling<Us>`. -/
def generateCastling (pos : Position) (us : Nat) : List Nat :=
  let them := if us == WHITE then BLACK else WHITE
  if inCheck pos then []
  else
    let occ := occupied pos
    let rights := pos.castling
    let kingside :=
      if us == WHITE && (rights &&& WHITE_OO) != 0 then
        if (occ &&& (BB.squareBB 5 ||| BB.squareBB 6)) == 0 &&
           !isAttacked pos 4 them && !isAttacked pos 5 them && !isAttacked pos 6 them then
          [mkCastling 4 6]
        else []
      else if us == BLACK && (rights &&& BLACK_OO) != 0 then
        if (occ &&& (BB.squareBB 61 ||| BB.squareBB 62)) == 0 &&
           !isAttacked pos 60 them && !isAttacked pos 61 them && !isAttacked pos 62 them then
          [mkCastling 60 62]
        else []
      else []
    let queenside :=
      if us == WHITE && (rights &&& WHITE_OOO) != 0 then
        if (occ &&& (BB.squareBB 1 ||| BB.squareBB 2 ||| BB.squareBB 3)) == 0 &&
           !isAttacked pos 4 them && !isAttacked pos 3 them && !isAttacked pos 2 them then
          [mkCastling 4 2]
        else []
      else if us == BLACK && (rights &&& BLACK_OOO) != 0 then
        if (occ &&& (BB.squareBB 57 ||| BB.squareBB 58 ||| BB.squareBB 59)) == 0 &&
           !isAttacked pos 60 them && !isAttacked pos 59 them && !isAttacked pos 58 them then
          [mkCastling 60 58]
        else []
      else []
    kingside ++ queenside

/-- MoveGen.cpp `generatePseudoLegalMoves`. -/
def generatePseudoLegalMoves (pos : Position) : List Nat :=
  let us := pos.stm
  ((BB.squaresOf (piecesCT pos us PAWN)).flatMap (generatePawnMoves pos us)) ++
  generatePieceMoves pos KNIGHT us (piecesCT pos us KNIGHT) ++
  generatePieceMoves pos BISHOP us (piecesCT pos us BISHOP) ++
  generatePieceMoves pos ROOK us (piecesCT pos us ROOK) ++
  generatePieceMoves pos QUEEN us (piecesCT pos us QUEEN) ++
  generatePieceMoves pos KING us (piecesCT pos us KING) ++
  generateCastling pos us

/-- MoveGen.cpp `isLegal`: makes the move on the position, tests whether the
mover's king is attacked, and unmakes.  The mutated position is returned
with the verdict, since the C++ `Position&` keeps the side effects of
make/unmake (in particular the hash residue left by `unmakeMove`). -/
def isLegalSt (pos : Position) (move : Nat) : Bool × Position :=
  let us := pos.stm
  let p := makeMove pos move
  let legal := !isAttacked p (BB.lsb (piecesCT p us KING)) p.stm
  (legal, unmakeMove p)

def legalFilterAux : List Nat → Position → List Nat → List Nat × Position
  | [], p, acc => (acc.reverse, p)
  | m :: rest, p, acc =>
    let (ok, p') := isLegalSt p m
    legalFilterAux rest p' (if ok then m :: acc else acc)

/-- MoveGen.cpp `generateLegalMoves`: pseudo-legal moves generated once from
the incoming position, then filtered through `isLegal` with the position
threaded. -/
def generateLegalMovesSt (pos : Position) : List Nat × Position :=
  legalFilterAux (generatePseudoLegalMoves pos) pos []

def capturesFilterAux : List Nat → Position → List Nat → List Nat × Position
  | [], p, acc => (acc.reverse, p)
  | m :: rest, p, acc =>
    if pieceAt p (toSquare m) != NO_PIECE || moveType m == EN_PASSANT then
      let (ok, p') := isLegalSt p m
      capturesFilterAux rest p' (if ok then m :: acc else acc)
    else capturesFilterAux rest p acc

/-- MoveGen.cpp `generateCaptures`. -/
def generateCapturesSt (pos : Position) : List Nat × Position :=
  capturesFilterAux (generatePseudoLegalMoves pos) pos []

end MoveGen

namespace AI

open Position

/-- C++ `int` division truncates toward zero: `Int.tdiv`. -/
def cppDiv (a b : Int) : Int := Int.tdiv a b

/-- AI.cpp `PST::pawn`. -/
def pstPawn : List Int := [
  0, 0, 0, 0, 0, 0, 0, 0,
  5, 10, 10, -20, -20, 10, 10, 5,
  5, 10, 20, 40, 40, 20, 10, 5,
  10, 15, 30, 70, 70, 30, 15, 10,
  15, 20, 35, 80, 80, 35, 20, 15,
  20, 25, 30, 35, 35, 30, 25, 20,
  50, 50, 50, 50, 50, 50, 50, 50,
  0, 0, 0, 0, 0, 0, 0, 0]

/-- AI.cpp `PST::knight`. -/
def pstKnight : List Int := [
  -50, -40, -30, -25, -25, -30, -40, -50,
  -40, -20, 0, 5, 5, 0, -20, -40,
  -30, 5, 10, 15, 15, 10, 5, -30,
  -25, 5, 15, 20, 20, 15, 5, -25,
  -25, 5, 15, 20, 20, 15, 5, -25,
  -30, 5, 10, 15, 15, 10, 5, -30,
  -40, -20, 0, 5, 5, 0, -20, -40,
  -50, -40, -30, -25, -25, -30, -40, -50]

/-- AI.cpp `PST::bishop`. -/
def pstBishop : List Int := [
  -20, -10, -10, -10, -10, -10, -10, -20,
  -10, 5, 0, 0, 0, 0, 5, -10,
  -10, 10, 10, 10, 10, 10, 10, -10,
  -10, 0, 10, 15, 15, 10, 0, -10,
  -10, 5, 5, 15, 15, 5, 5, -10,
  -10, 0, 5, 10, 10, 5, 0, -10,
  -10, 5, 0, 0, 0, 0, 5, -10,
  -20, -10, -10, -10, -10, -10, -10, -20]

/-- AI.cpp `PST::rook`. -/
def pstRook : List Int := [
  0, 0, 0, 5, 5, 0, 0, 0,
  20, 20, 20, 20, 20, 20, 20, 20,
  -5, 0, 0, 0, 0, 0, 0, -5,
  -5, 0, 0, 0, 0, 0, 0, -5,
  -5, 0, 0, 0, 0, 0, 0, -5,
  -5, 0, 0, 0, 0, 0, 0, -5,
  -5, 0, 0, 0, 0, 0, 0, -5,
  0, 0, 0, 0, 0, 0, 0, 0]

/-- AI.cpp `PST::kingMiddle`. -/
def pstKingMiddle : List Int := [
  20, 30, 10, 0, 0, 10, 30, 20,
  -10, -20, -20, -20, -20, -20, -20, -10,
  -20, -30, -30, -40, -40, -30, -30, -20,
  -30, -40, -40, -50, -50, -40, -40, -30,
  -30, -40, -40, -50, -50, -40, -40, -30,
  -30, -40, -40, -50, -50, -40, -40, -30,
  -30, -40, -40, -50, -50, -40, -40, -30,
  -30, -40, -40, -50, -50, -40, -40, -30]

/-- Sum of a piece-square table over the squares of a bitboard. -/
def pstSum (tbl : List Int) (bb : Nat) : Int :=
  (BB.squaresOf bb).foldl (fun acc sq => acc + tbl.getD sq 0) 0

/-- Same, with Black squares mirrored (`sq ^ 56`). -/
def pstSumFlip (tbl : List Int) (bb : Nat) : Int :=
  (BB.squaresOf bb).foldl (fun acc sq => acc + tbl.getD (sq ^^^ 56) 0) 0

/-- AI.cpp `evaluatePawnStructure`. -/
def evaluatePawnStructure (pos : Position) (c : Nat) : Int :=
  let enemyPawns := piecesCT pos (flipColor c) PAWN
  (BB.squaresOf (piecesCT pos c PAWN)).foldl (fun score sq =>
    let file := fileOf sq
    let rank := rankOf sq
    -- doubled pawns
    let score := if BB.popCount (piecesCT pos c PAWN &&& BB.fileBBIdx file) > 1 then score - 10 else score
    -- isolated pawns
    let adjacentFiles :=
      (if file > 0 then BB.fileBBIdx (file - 1) else 0) |||
      (if file < 7 then BB.fileBBIdx (file + 1) else 0)
    let score := if (piecesCT pos c PAWN &&& adjacentFiles) == 0 then score - 15 else score
    -- passed pawns
    let frontRanks := if c == WHITE then (List.range 8).filter (fun r => rank + 1 ≤ r)
                      else (List.range 8).filter (fun r => r < rank)
    let passedMask := frontRanks.foldl (fun m r =>
      m ||| BB.squareBB (r * 8 + file) |||
      (if file > 0 then BB.squareBB (r * 8 + file - 1) else 0) |||
      (if file < 7 then BB.squareBB (r * 8 + file + 1) else 0)) 0
    let score :=
      if (enemyPawns &&& passedMask) == 0 then
        let bonus : Int := if c == WHITE then ((rank : Int) - 1) * 10 else (6 - (rank : Int)) * 10
        score + 20 + bonus
      else
        -- backward pawns
        let backRanks := if c == WHITE then (List.range (rank + 1))
                         else (List.range 8).filter (fun r => rank ≤ r)
        let supportMask := backRanks.foldl (fun m r =>
          m ||| (if file > 0 then BB.squareBB (r * 8 + file - 1) else 0) |||
          (if file < 7 then BB.squareBB (r * 8 + file + 1) else 0)) 0
        let hasSupport := (piecesCT pos c PAWN &&& supportMask) != 0
        if !hasSupport && (piecesCT pos c PAWN &&& adjacentFiles) == 0 then score - 12 else score
    -- pawn chain
    let defenderMask := BB.pawnAttacks (flipColor c) sq
    if (defenderMask &&& piecesCT pos c PAWN) != 0 then score + 5 else score) 0

/-- AI.cpp `evaluateKingSafety` (note: shield ranks are absolute 2/3 resp.
7/6, not king-relative — preserved as written). -/
def evaluateKingSafety (pos : Position) (c : Nat) : Int :=
  let kingSq := BB.lsb (piecesCT pos c KING)
  let kingFile := fileOf kingSq
  let pawns := piecesCT pos c PAWN
  let lo := kingFile - 1
  let hi := min 7 (kingFile + 1)
  let files := (List.range (hi + 1 - lo)).map (fun i => lo + i)
  let score : Int := files.foldl (fun s f =>
    if c == WHITE then
      let s := if (pawns &&& BB.squareBB (1 * 8 + f)) != 0 then s + 10 else s
      if (pawns &&& BB.squareBB (2 * 8 + f)) != 0 then s + 5 else s
    else
      let s := if (pawns &&& BB.squareBB (6 * 8 + f)) != 0 then s + 10 else s
      if (pawns &&& BB.squareBB (5 * 8 + f)) != 0 then s + 5 else s) 0
  files.foldl (fun s f =>
    let filePawns := (piecesCT pos WHITE PAWN ||| piecesCT pos BLACK PAWN) &&& BB.fileBBIdx f
    if filePawns == 0 then s - 20 else s) score

/-- AI.cpp `evaluateMobility`. -/
def evaluateMobility (pos : Position) (c : Nat) : Int :=
  let own := piecesC pos c
  let occ := occupied pos
  let knightMob := (BB.squaresOf (piecesCT pos c KNIGHT)).foldl (fun m sq =>
    m + BB.popCount (BB.knightAttacks sq &&& (mask64 ^^^ own))) 0
  let bishopMob := (BB.squaresOf (piecesCT pos c BISHOP)).foldl (fun m sq =>
    m + BB.popCount (Magic.bishopAttacks sq occ &&& (mask64 ^^^ own))) 0
  let rookMob := (BB.squaresOf (piecesCT pos c ROOK)).foldl (fun m sq =>
    m + BB.popCount (Magic.rookAttacks sq occ &&& (mask64 ^^^ own))) 0
  let queenMob := (BB.squaresOf (piecesCT pos c QUEEN)).foldl (fun m sq =>
    m + BB.popCount ((Magic.bishopAttacks sq occ ||| Magic.rookAttacks sq occ) &&& (mask64 ^^^ own))) 0
  ((knightMob + bishopMob + rookMob + queenMob : Nat) : Int) * 2

/-- AI.cpp `getGamePhase`. -/
def getGamePhase (pos : Position) : Int :=
  let phase : Nat :=
    BB.popCount (piecesCT pos WHITE KNIGHT) + BB.popCount (piecesCT pos BLACK KNIGHT) +
    BB.popCount (piecesCT pos WHITE BISHOP) + BB.popCount (piecesCT pos BLACK BISHOP) +
    (BB.popCount (piecesCT pos WHITE ROOK) + BB.popCount (piecesCT pos BLACK ROOK)) * 2 +
    (BB.popCount (piecesCT pos WHITE QUEEN) + BB.popCount (piecesCT pos BLACK QUEEN)) * 4
  min 256 (((phase : Int) * 256 + 12) / 24)

/-- AI.cpp `evaluateDevelopment`. -/
def evaluateDevelopment (pos : Position) (c : Nat) : Int :=
  if c == WHITE then
    let score : Int := 0
    let score := if pieceAt pos 1 == makePiece WHITE KNIGHT then score - 20 else score
    let score := if pieceAt pos 6 == makePiece WHITE KNIGHT then score - 20 else score
    let score := if pieceAt pos 2 == makePiece WHITE BISHOP then score - 15 else score
    let score := if pieceAt pos 5 == makePiece WHITE BISHOP then score - 15 else score
    let score := if pieceAt pos 0 == makePiece WHITE ROOK then score - 5 else score
    let score := if pieceAt pos 7 == makePiece WHITE ROOK then score - 5 else score
    let queenSq := BB.lsb (piecesCT pos WHITE QUEEN)
    let score :=
      if queenSq != 3 && queenSq != NO_SQUARE then
        let minors :=
          (if pieceAt pos 1 != makePiece WHITE KNIGHT then 1 else 0) +
          (if pieceAt pos 6 != makePiece WHITE KNIGHT then 1 else 0) +
          (if pieceAt pos 2 != makePiece WHITE BISHOP then 1 else 0) +
          (if pieceAt pos 5 != makePiece WHITE BISHOP then 1 else 0)
        if minors < 2 then score - 30 else score
      else score
    let kingSq := BB.lsb (piecesCT pos WHITE KING)
    let score := if kingSq == 6 || kingSq == 2 then score + 40 else score
    let score := if pieceAt pos 28 == makePiece WHITE PAWN then score + 50 else score
    if pieceAt pos 27 == makePiece WHITE PAWN then score + 50 else score
  else
    let score : Int := 0
    let score := if pieceAt pos 57 == makePiece BLACK KNIGHT then score - 20 else score
    let score := if pieceAt pos 62 == makePiece BLACK KNIGHT then score - 20 else score
    let score := if pieceAt pos 58 == makePiece BLACK BISHOP then score - 15 else score
    let score := if pieceAt pos 61 == makePiece BLACK BISHOP then score - 15 else score
    let score := if pieceAt pos 56 == makePiece BLACK ROOK then score - 5 else score
    let score := if pieceAt pos 63 == makePiece BLACK ROOK then score - 5 else score
    let queenSq := BB.lsb (piecesCT pos BLACK QUEEN)
    let score :=
      if queenSq != 59 && queenSq != NO_SQUARE then
        let minors :=
          (if pieceAt pos 57 != makePiece BLACK KNIGHT then 1 else 0) +
          (if pieceAt pos 62 != makePiece BLACK KNIGHT then 1 else 0) +
          (if pieceAt pos 58 != makePiece BLACK BISHOP then 1 else 0) +
          (if pieceAt pos 61 != makePiece BLACK BISHOP then 1 else 0)
        if minors < 2 then score - 30 else score
      else score
    let kingSq := BB.lsb (piecesCT pos BLACK KING)
    let score := if kingSq == 62 || kingSq == 58 then score + 40 else score
    let score := if pieceAt pos 36 == makePiece BLACK PAWN then score + 50 else score
    if pieceAt pos 35 == makePiece BLACK PAWN then score + 50 else score

/-- AI.cpp `evaluateRooks`. -/
def evaluateRooks (pos : Position) (c : Nat) : Int :=
  let ourPawns := piecesCT pos c PAWN
  let enemyPawns := piecesCT pos (flipColor c) PAWN
  (BB.squaresOf (piecesCT pos c ROOK)).foldl (fun score sq =>
    let fileMask := BB.fileBBIdx (fileOf sq)
    let hasOurPawns := (ourPawns &&& fileMask) != 0
    let hasEnemyPawns := (enemyPawns &&& fileMask) != 0
    let score :=
      if !hasOurPawns && !hasEnemyPawns then score + 25
      else if !hasOurPawns && hasEnemyPawns then score + 15
      else score
    let rank := rankOf sq
    if (c == WHITE && rank == 6) || (c == BLACK && rank == 1) then score + 20 else score) 0

/-- AI.cpp `evaluateBishops`. -/
def evaluateBishops (pos : Position) (c : Nat) : Int :=
  if BB.popCount (piecesCT pos c BISHOP) ≥ 2 then 30 else 0

/-- AI.cpp `evaluateKnights` (outposts). -/
def evaluateKnights (pos : Position) (c : Nat) : Int :=
  let ourPawns := piecesCT pos c PAWN
  let enemyPawns := piecesCT pos (flipColor c) PAWN
  (BB.squaresOf (piecesCT pos c KNIGHT)).foldl (fun score sq =>
    let file := fileOf sq
    let rank := rankOf sq
    let isOutpostRank :=
      (c == WHITE && (rank == 3 || rank == 4 || rank == 5)) ||
      (c == BLACK && (rank == 4 || rank == 3 || rank == 2))
    if isOutpostRank then
      let defenderMask := BB.pawnAttacks (flipColor c) sq
      if (defenderMask &&& ourPawns) != 0 then
        let ranksAhead := if c == WHITE then (List.range 8).filter (fun r => rank ≤ r)
                          else List.range (rank + 1)
        let canBeAttacked := ranksAhead.any (fun r =>
          (file > 0 && (enemyPawns &&& BB.squareBB (r * 8 + file - 1)) != 0) ||
          (file < 7 && (enemyPawns &&& BB.squareBB (r * 8 + file + 1)) != 0))
        if !canBeAttacked then
          score + 25 + (if 2 ≤ file && file ≤ 5 then 10 else 0)
        else score
      else score
    else score) 0

/-- AI.cpp `evaluate`: material + PST + feature terms, tapered between
opening and endgame weights, from the side to move's perspective. -/
def evaluate (pos : Position) : Int :=
  let material : Int := (materialCount pos WHITE : Int) - (materialCount pos BLACK : Int)
  let positional : Int :=
    pstSum pstPawn (piecesCT pos WHITE PAWN) +
    pstSum pstKnight (piecesCT pos WHITE KNIGHT) +
    pstSum pstBishop (piecesCT pos WHITE BISHOP) +
    pstSum pstRook (piecesCT pos WHITE ROOK) +
    pstSum pstKingMiddle (piecesCT pos WHITE KING) -
    pstSumFlip pstPawn (piecesCT pos BLACK PAWN) -
    pstSumFlip pstKnight (piecesCT pos BLACK KNIGHT) -
    pstSumFlip pstBishop (piecesCT pos BLACK BISHOP) -
    pstSumFlip pstRook (piecesCT pos BLACK ROOK) -
    pstSumFlip pstKingMiddle (piecesCT pos BLACK KING)
  let pawnStructure := evaluatePawnStructure pos WHITE - evaluatePawnStructure pos BLACK
  let kingSafety := evaluateKingSafety pos WHITE - evaluateKingSafety pos BLACK
  let mobility := evaluateMobility pos WHITE - evaluateMobility pos BLACK
  let development := evaluateDevelopment pos WHITE - evaluateDevelopment pos BLACK
  let rookScore := evaluateRooks pos WHITE - evaluateRooks pos BLACK
  let bishopScore := evaluateBishops pos WHITE - evaluateBishops pos BLACK
  let knightScore := evaluateKnights pos WHITE - evaluateKnights pos BLACK
  let phase := getGamePhase pos
  let openingScore := material + positional + mobility + kingSafety +
    pawnStructure + development + rookScore + bishopScore + knightScore
  let endgameScore := material + cppDiv positional 2 + cppDiv mobility 2 +
    cppDiv kingSafety 4 + cppDiv (pawnStructure * 3) 2 +
    cppDiv (rookScore * 3) 2 + bishopScore + knightScore
  let score := cppDiv (openingScore * phase + endgameScore * (256 - phase)) 256
  if pos.stm == WHITE then score else -score

end AI

namespace AI

open Position MoveGen

/-- AI.h TT flags (enum TTFlag). -/
def EXACT : Nat := 0
def LOWERBOUND : Nat := 1
def UPPERBOUND : Nat := 2

/-- AI.h `TTEntry`.  A value-initialised entry (the state of the freshly
allocated table) is all zeros. -/
structure TTEntry where
  key : Nat := 0
  depth : Int := 0
  score : Int := 0
  flag : Nat := 0
  bestMove : Nat := 0
  age : Nat := 0
deriving DecidableEq, Repr

/-- AI.h `TT_SIZE`: `128 MiB / sizeof(TTEntry)`, with `sizeof(TTEntry) = 24`
on LP64 (8 key + 4 depth + 4 score + 4 flag + 2 move + 1 age, padded). -/
def TT_SIZE : Nat := (128 * 1024 * 1024) / 24

/-- `std::numeric_limits<int>::min()`. -/
def INT_MIN : Int := -2147483648

/-- The search-engine state negamax reads and writes: the transposition
table (indexed function), its age, node counters, and the killer / history
/ PV / counter-move tables.  `timeUp` stands for the value `shouldStop()`
returns; with no time limit configured it is `false`. -/
structure AIState where
  tt : Nat → TTEntry
  ttAge : Nat
  nodesSearched : Nat
  ttHits : Nat
  timeUp : Bool
  killerMoves : Nat → Nat → Nat
  historyTable : Nat → Nat → Int
  pvTable : Nat → Nat → Nat
  pvLength : Nat → Nat
  countermoves : Nat → Nat → Nat

/-- Pointwise update of a one-index table. -/
def upd1 {α : Type} (f : Nat → α) (i : Nat) (v : α) : Nat → α :=
  fun a => if a == i then v else f a

/-- Pointwise update of a two-index table. -/
def upd2 {α : Type} (f : Nat → Nat → α) (i j : Nat) (v : α) : Nat → Nat → α :=
  fun a b => if a == i && b == j then v else f a b

/-- The engine state at construction: zeroed tables (`AI::AI`). -/
def freshState : AIState where
  tt := fun _ => {}
  ttAge := 0
  nodesSearched := 0
  ttHits := 0
  timeUp := false
  killerMoves := fun _ _ => 0
  historyTable := fun _ _ => 0
  pvTable := fun _ _ => 0
  pvLength := fun _ => 0
  countermoves := fun _ _ => 0

/-- AI.cpp `isKiller`. -/
def isKiller (st : AIState) (move ply : Nat) : Bool :=
  if ply ≥ 64 then false
  else st.killerMoves ply 0 == move || st.killerMoves ply 1 == move

/-- AI.cpp `storeKiller`. -/
def storeKiller (st : AIState) (move ply : Nat) : AIState :=
  if ply ≥ 64 then st
  else if st.killerMoves ply 0 != move then
    let k := upd2 st.killerMoves ply 1 (st.killerMoves ply 0)
    { st with killerMoves := upd2 k ply 0 move }
  else st

/-- AI.cpp `updateHistory`: gravity-aged bonus, clamped to ±10000. -/
def updateHistory (st : AIState) (move : Nat) (depth : Nat) : AIState :=
  let from_ := fromSquare move
  let to_ := toSquare move
  let bonus : Int := (depth : Int) * (depth : Int)
  let h := st.historyTable from_ to_
  let h := h + (bonus - cppDiv (h * bonus.natAbs) 10000)
  let h := if h > 10000 then 10000 else if h < -10000 then -10000 else h
  { st with historyTable := upd2 st.historyTable from_ to_ h }

/-- AI.cpp `getMoveScore`. -/
def getMoveScore (st : AIState) (pos : Position) (move : Nat) (ply ttMove : Nat) : Int :=
  if move == ttMove then 1000000
  else
    let from_ := fromSquare move
    let to_ := toSquare move
    let captured := pieceAt pos to_
    let score : Int :=
      if captured != NO_PIECE || moveType move == EN_PASSANT then
        let seeValue := see pos move
        if seeValue > 0 then 20000 + seeValue
        else if seeValue == 0 then 10000
        else 5000 + seeValue
      else
        let score : Int := 0
        let score :=
          if ply > 0 && st.pvLength (ply - 1) > 0 then
            let prevMove := st.pvTable (ply - 1) 0
            if move == st.countermoves (fromSquare prevMove) (toSquare prevMove) then
              score + 9500
            else score
          else score
        let score := if isKiller st move ply then score + 9000 else score
        score + st.historyTable from_ to_
    if moveType move == PROMOTION then score + 15000 else score

/-- AI.cpp `orderMoves`: `std::sort` with a strict greater-than comparator
on `getMoveScore`.  (`std::sort` is unstable and leaves the order of
equal-scored moves unspecified; a stable descending sort is one admissible
outcome.) -/
def orderMoves (st : AIState) (pos : Position) (moves : List Nat) (ply ttMove : Nat) : List Nat :=
  moves.mergeSort (fun a b => getMoveScore st pos b ply ttMove ≤ getMoveScore st pos a ply ttMove)

/-- One step of the quiescence check-augmentation loop: quiet moves that
give check are appended to the move list (AI.cpp quiescence, the
`qsDepth == 0` block that probes each non-capture with make/unmake). -/
def checkAugment (acc : List Nat × Position) (m : Nat) : List Nat × Position :=
  let isCapture := pieceAt acc.2 (toSquare m) != NO_PIECE || moveType m == EN_PASSANT
  if isCapture then acc
  else
    let p1 := makeMove acc.2 m
    let givesCheck := inCheck p1
    let p2 := unmakeMove p1
    (if givesCheck then acc.1 ++ [m] else acc.1, p2)

/-- The capture loop of AI.cpp `quiescence`, with the recursive call passed
in as `recurse` (already carrying the child quiescence depth). -/
def qsLoopAux (recurse : Position → AIState → Int → Int → Int × Position × AIState) :
    List Nat → Position → AIState → Int → Int → Int → Int × Position × AIState
  | [], pos, st, alpha, _, _ => (alpha, pos, st)
  | m :: rest, pos, st, alpha, beta, standPat =>
    if see pos m < 0 then qsLoopAux recurse rest pos st alpha beta standPat
    else
      let captured := pieceAt pos (toSquare m)
      if captured != NO_PIECE &&
          standPat + Position.pieceValuesI (typeOf captured) + 200 < alpha then
        qsLoopAux recurse rest pos st alpha beta standPat
      else
        let p1 := makeMove pos m
        let r2 := recurse p1 st (-beta) (-alpha)
        let score := -r2.1
        let p3 := unmakeMove r2.2.1
        if score ≥ beta then (beta, p3, r2.2.2)
        else
          let alpha := if score > alpha then score else alpha
          qsLoopAux recurse rest p3 r2.2.2 alpha beta standPat

/-- AI.cpp `quiescence`, with a fuel parameter for termination (the C++
recursion is bounded by the exchange material in practice; all theorems
below stay on fuel-sufficient runs).  Returns the score together with the
threaded position and engine state. -/
def quiescence : Nat → Position → AIState → Int → Int → Nat → Int × Position × AIState
  | 0, pos, st, alpha, _, _ => (alpha, pos, st)
  | fuel + 1, pos, st, alpha, beta, qsDepth =>
    let st := { st with nodesSearched := st.nodesSearched + 1 }
    let inChk := inCheck pos
    let standPat : Int := if !inChk then evaluate pos else 0
    if !inChk && standPat ≥ beta then (beta, pos, st)
    else if !inChk && standPat + 900 < alpha then (alpha, pos, st)
    else
      let alpha := if !inChk && alpha < standPat then standPat else alpha
      let gc := generateCapturesSt pos
      let withChecks : List Nat × Position :=
        if qsDepth == 0 && !inChk then
          let lm := generateLegalMovesSt gc.2
          let folded := lm.1.foldl checkAugment ([], lm.2)
          (gc.1 ++ folded.1, folded.2)
        else gc
      let pos := withChecks.2
      let sorted := withChecks.1.mergeSort (fun a b =>
        getMoveScore st pos b 0 0 ≤ getMoveScore st pos a 0 0)
      qsLoopAux (fun p s a b => quiescence fuel p s a b (qsDepth + 1))
        sorted pos st alpha beta standPat

/-- The result of the negamax move loop: running alpha, best score, best
move, and the threaded position/state; `cutoff` records whether the loop
ended in a beta cutoff. -/
structure LoopResult where
  alpha : Int
  maxScore : Int
  bestMove : Nat
  pos : Position
  st : AIState

/-- The PV update on a new best move (`pvTable[ply][0] = move;` then the
copy of the child PV and `pvLength[ply] = pvLength[ply+1] + 1`). -/
def updatePV (st : AIState) (ply move : Nat) : AIState :=
  let pv := upd2 st.pvTable ply 0 move
  let len := st.pvLength (ply + 1)
  let pv := (List.range len).foldl (fun t i => upd2 t ply (i + 1) (st.pvTable (ply + 1) i)) pv
  { st with pvTable := pv, pvLength := upd1 st.pvLength ply (len + 1) }

/-- The principal-variation search of one move inside the negamax loop:
full-window search for the first move, otherwise a null-window (possibly
LMR-reduced) probe with the re-search ladder (AI.cpp negamax, the
`moveNum == 0` / LMR / re-search block).  `alpha` and `beta` are the
caller's window; `reduction` is the LMR amount (0 if none applies). -/
def pvsSearch (recurse : Position → AIState → Nat → Int → Int → Int × Position × AIState)
    (p1 : Position) (st : AIState) (newDepth reduction : Nat) (alpha beta : Int)
    (moveNum : Nat) : Int × Position × AIState :=
  if moveNum == 0 then
    let r2 := recurse p1 st newDepth (-beta) (-alpha)
    (-r2.1, r2.2)
  else
    let r2 := recurse p1 st (newDepth - reduction) (-alpha - 1) (-alpha)
    let score := -r2.1
    if score > alpha && score < beta then
      let mid : Int × Position × AIState :=
        if reduction > 0 then
          let r3 := recurse r2.2.1 r2.2.2 newDepth (-alpha - 1) (-alpha)
          (-r3.1, r3.2)
        else (score, r2.2)
      if mid.1 > alpha && mid.1 < beta then
        let r4 := recurse mid.2.1 mid.2.2 newDepth (-beta) (-alpha)
        (-r4.1, r4.2)
      else mid
    else (score, r2.2)

/-- The bookkeeping after one searched move in the negamax loop: unmake,
best-score/best-move update with the PV copy, the alpha raise, and on a
beta cutoff the killer/history/counter-move updates for quiet moves.
Returns the updated loop state and the cutoff flag. -/
def nmAccum (depth ply : Nat) (beta : Int) (m : Nat) (r : LoopResult)
    (searched : Int × Position × AIState) : LoopResult × Bool :=
  let score := searched.1
  let pos := unmakeMove searched.2.1
  let st4 := searched.2.2
  let best : Int × Nat × AIState :=
    if score > r.maxScore then (score, m, updatePV st4 ply m)
    else (r.maxScore, r.bestMove, st4)
  let alpha := max r.alpha score
  if alpha ≥ beta then
    -- beta cutoff: killer/history/counter-move updates for quiet moves
    let isCapture2 := pieceAt pos (toSquare m) != NO_PIECE || moveType m == EN_PASSANT
    let st6 :=
      if !isCapture2 then
        let st6 := storeKiller best.2.2 m ply
        let st6 := updateHistory st6 m depth
        if ply > 0 && st6.pvLength (ply - 1) > 0 then
          let prevMove := st6.pvTable (ply - 1) 0
          { st6 with countermoves := upd2 st6.countermoves (fromSquare prevMove) (toSquare prevMove) m }
        else st6
      else best.2.2
    ({ alpha := alpha, maxScore := best.1, bestMove := best.2.1, pos := pos, st := st6 }, true)
  else
    ({ alpha := alpha, maxScore := best.1, bestMove := best.2.1, pos := pos, st := best.2.2 }, false)

/-- One iteration of the negamax move loop (futility/LMP skips, the PVS
search with make/unmake, the best-move and window bookkeeping).  Returns
the updated loop state together with a flag that is true exactly when the
iteration ended the loop with a beta cutoff. -/
def nmStep (recurse : Position → AIState → Nat → Int → Int → Int × Position × AIState)
    (depth ply : Nat) (beta : Int) (futilityPrune : Bool) (m moveNum : Nat)
    (r : LoopResult) : LoopResult × Bool :=
  let pos := r.pos
  let isCapture := pieceAt pos (toSquare m) != NO_PIECE || moveType m == EN_PASSANT
  let isPromotion := moveType m == PROMOTION
  if futilityPrune && moveNum > 0 && !isCapture && !isPromotion then (r, false)
  else if depth ≤ 3 && moveNum ≥ 3 + depth * depth && !isCapture && !isPromotion &&
      !isKiller r.st m ply then (r, false)
  else
    let p1 := makeMove pos m
      let givesCheck := inCheck p1
      let extension := if givesCheck then 1 else 0
      let newDepth := depth - 1 + extension
      let reduction :=
        if depth ≥ 3 && moveNum ≥ 3 && !isCapture && !givesCheck && !isPromotion &&
            !isKiller r.st m ply then
          let red := 1 + (if depth ≥ 6 then 1 else 0) + (if moveNum ≥ 6 then 1 else 0)
          let red := if depth ≥ 8 && moveNum ≥ 10 then red + 1 else red
          min red newDepth
        else 0
      nmAccum depth ply beta m r
        (pvsSearch recurse p1 r.st newDepth reduction r.alpha beta moveNum)

/-- The move loop of AI.cpp `negamax` (PVS with LMR/LMP/futility), with the
recursive search passed in as `recurse` (arguments: position, state, depth,
alpha, beta, ply). -/
def nmLoopAux (recurse : Position → AIState → Nat → Int → Int → Int × Position × AIState)
    (depth ply : Nat) (beta : Int) (futilityPrune : Bool) :
    List Nat → Nat → LoopResult → LoopResult
  | [], _, r => r
  | m :: rest, moveNum, r =>
    let s := nmStep recurse depth ply beta futilityPrune m moveNum r
    if s.2 then s.1
    else nmLoopAux recurse depth ply beta futilityPrune rest (moveNum + 1) s.1

/-- The transposition-table probe at the top of AI.cpp `negamax`: on a
sufficiently deep hit it either returns the stored score (EXACT, or a
bound that closes the window) or tightens `alpha`/`beta`. -/
def ttProbe (st : AIState) (ttIndex hash depth : Nat) (alpha beta : Int) :
    Option Int × Int × Int × AIState :=
  let e := st.tt ttIndex
  if e.key == hash && e.depth ≥ (depth : Int) then
    let st := { st with ttHits := st.ttHits + 1 }
    if e.flag == EXACT then (some e.score, alpha, beta, st)
    else
      let alpha := if e.flag == LOWERBOUND then max alpha e.score else alpha
      let beta := if e.flag == UPPERBOUND then min beta e.score else beta
      if alpha ≥ beta then (some e.score, alpha, beta, st)
      else (none, alpha, beta, st)
  else (none, alpha, beta, st)

/-- The null-move pruning step of AI.cpp `negamax` (eligibility test, null
make, reduced-depth search with the narrowed window, null unmake); `search`
is the fuel-decremented recursive search. -/
def nullMoveStep
    (search : AIState → Position → Nat → Int → Int → Nat → Int × Position × AIState)
    (st : AIState) (pos : Position) (depth : Nat) (beta : Int) (ply : Nat) :
    Option Int × Position × AIState :=
  let canDoNullMove :=
    if depth ≥ 3 && !inCheck pos && ply > 0 then
      let us := pos.stm
      let material := materialCount pos us
      let nonPawnPieces :=
        BB.popCount (piecesCT pos us KNIGHT) + BB.popCount (piecesCT pos us BISHOP) +
        BB.popCount (piecesCT pos us ROOK) + BB.popCount (piecesCT pos us QUEEN)
      !(material ≤ 100 || nonPawnPieces == 0 || (nonPawnPieces == 1 && material < 500))
    else false
  if canDoNullMove then
    let p1 := makeNullMove pos
    -- std::max(0, depth - 1 - NULL_MOVE_REDUCTION): Nat subtraction clamps at 0
    let nullDepth := depth - 1 - 3
    let r2 := search st p1 nullDepth (-beta) (-beta + 1) (ply + 1)
    let p3 := unmakeNullMove r2.2.1
    if -r2.1 ≥ beta then (some beta, p3, r2.2.2) else (none, p3, r2.2.2)
  else (none, pos, st)

/-- The reverse-futility (static null move) test of AI.cpp `negamax`. -/
def rfpCheck (pos : Position) (depth : Nat) (alpha beta : Int) : Option Int :=
  let isPVNode := beta - alpha > 1
  if depth ≤ 6 && !isPVNode && !inCheck pos then
    let eval := evaluate pos
    if eval - 100 * (depth : Int) ≥ beta then some eval else none
  else none

/-- The razoring step of AI.cpp `negamax`; `qs` is the fuel-decremented
quiescence search. -/
def razorStep
    (qs : Position → AIState → Int → Int → Nat → Int × Position × AIState)
    (pos : Position) (st : AIState) (depth : Nat) (alpha beta : Int) :
    Option Int × Position × AIState :=
  let isPVNode := beta - alpha > 1
  let razorTry :=
    if depth ≤ 3 && !isPVNode && !inCheck pos then
      let eval := evaluate pos
      eval + 300 + 150 * (depth : Int) < alpha
    else false
  if razorTry then
    let q := qs pos st alpha beta 0
    if q.1 < alpha then (some q.1, q.2) else (none, q.2)
  else (none, pos, st)

/-- The internal iterative deepening step of AI.cpp `negamax`: with no TT
move at a PV node of depth ≥ 4, a reduced-depth search seeds the TT and its
best move (validated against the legal list) is adopted. -/
def iidProbe
    (search : AIState → Position → Nat → Int → Int → Nat → Int × Position × AIState)
    (st : AIState) (pos : Position) (moves : List Nat) (ttMove hash ttIndex depth : Nat)
    (alpha beta : Int) (ply : Nat) : Nat × Position × AIState :=
  let isPVNode := beta - alpha > 1
  if ttMove == 0 && isPVNode && depth ≥ 4 then
    let r2 := search st pos (depth - 2) alpha beta ply
    let iid := r2.2.2.tt ttIndex
    if iid.key == hash && iid.bestMove != 0 then
      (if moves.contains iid.bestMove then iid.bestMove else 0, r2.2)
    else (0, r2.2)
  else (ttMove, pos, st)

/-- AI.cpp `negamax`, fuel-indexed.  Every statement is mirrored in source
order: node count and periodic time poll, TT probe, quiescence handoff at
depth 0, null-move pruning, reverse futility, razoring, the futility flag,
legal move generation with the mate/stalemate return, IID, the PVS move
loop, and the depth-preferred TT store. -/
def negamax : Nat → AIState → Position → Nat → Int → Int → Nat → Int × Position × AIState
  | 0, st, pos, _, _, _, _ => (0, pos, st)
  | fuel + 1, st, pos, depth, alpha, beta, ply =>
    let st := { st with nodesSearched := st.nodesSearched + 1 }
    if (st.nodesSearched &&& 0x3FF) == 0 && st.timeUp then (0, pos, st)
    else
      let alphaOrig := alpha
      let hash := pos.positionHash
      let ttIndex := hash % TT_SIZE
      let probe := ttProbe st ttIndex hash depth alpha beta
      match probe.1 with
      | some s => (s, pos, probe.2.2.2)
      | none =>
      let alpha := probe.2.1
      let beta := probe.2.2.1
      let st := probe.2.2.2
      if depth == 0 then
        let st := { st with pvLength := upd1 st.pvLength ply 0 }
        quiescence fuel pos st alpha beta 0
      else
      let nullResult := nullMoveStep (negamax fuel) st pos depth beta ply
      match nullResult.1 with
      | some s => (s, nullResult.2.1, nullResult.2.2)
      | none =>
      let pos := nullResult.2.1
      let st := nullResult.2.2
      match rfpCheck pos depth alpha beta with
      | some eval => (eval, pos, st)
      | none =>
      let razorResult := razorStep (quiescence fuel) pos st depth alpha beta
      match razorResult.1 with
      | some s => (s, razorResult.2.1, razorResult.2.2)
      | none =>
      let pos := razorResult.2.1
      let st := razorResult.2.2
      let futilityPrune :=
        if depth ≤ 3 && !inCheck pos then
          evaluate pos + 100 + 200 * (depth : Int) ≤ alpha
        else false
      let gen := generateLegalMovesSt pos
      let moves := gen.1
      let pos := gen.2
      if moves.isEmpty then
        if inCheck pos then (-10000 + ply, pos, st) else (0, pos, st)
      else
      let ttMove := if (st.tt ttIndex).key == hash then (st.tt ttIndex).bestMove else 0
      let iid := iidProbe (negamax fuel) st pos moves ttMove hash ttIndex depth alpha beta ply
      let ttMove := iid.1
      let pos := iid.2.1
      let st := iid.2.2
      let sorted := orderMoves st pos moves ply ttMove
      let st := { st with pvLength := upd1 st.pvLength ply 0 }
      let r := nmLoopAux (fun p s d a b => negamax fuel s p d a b (ply + 1))
        depth ply beta futilityPrune sorted 0
        { alpha := alpha, maxScore := INT_MIN, bestMove := sorted.headD 0,
          pos := pos, st := st }
      let entry := r.st.tt ttIndex
      let shouldReplace := entry.key == 0 || entry.key == hash ||
        entry.depth ≤ (depth : Int) || entry.age != r.st.ttAge
      let st :=
        if shouldReplace then
          let flag :=
            if r.maxScore ≤ alphaOrig then UPPERBOUND
            else if r.maxScore ≥ beta then LOWERBOUND
            else EXACT
          let newEntry : TTEntry := { key := hash, depth := (depth : Int), score := r.maxScore, bestMove := r.bestMove, age := r.st.ttAge, flag := flag }
          { r.st with tt := upd1 r.st.tt ttIndex newEntry }
        else r.st
      (r.maxScore, r.pos, st)

end AI

namespace Position

/-- Modelled from the spec: `Position::isInsufficientMaterial` is declared in
Position.h and exercised by test_position.cpp, but its body is not under
src/.  Spec section 4.4 lists "insufficient material" as a draw condition and
section 8 fixes the cases: bare kings, a lone minor piece, and same-coloured
bishops are insufficient; any pawn, rook, queen, two knights, or
opposite-coloured bishops are not. -/
def isInsufficientMaterial (pos : Position) : Bool :=
  let minors := BB.popCount (piecesT pos KNIGHT) + BB.popCount (piecesT pos BISHOP)
  let lightSquares : Nat := 0x55AA55AA55AA55AA
  piecesT pos PAWN == 0 && piecesT pos ROOK == 0 && piecesT pos QUEEN == 0 &&
    (minors ≤ 1 ||
     (piecesT pos KNIGHT == 0 &&
      ((piecesT pos BISHOP &&& lightSquares) == piecesT pos BISHOP ||
       (piecesT pos BISHOP &&& lightSquares) == 0)))

/-- Modelled from the spec: `Position::repetitionCount` (declared in
Position.h, used by test_position.cpp) — the number of times the current
hash has occurred since the last irreversible move.  The halfmove clock
counts exactly the reversible moves, and each history record carries the
hash before its move, so the count is 1 (the current occurrence) plus the
matches among the most recent `halfmoves` records. -/
def repetitionCount (pos : Position) : Nat :=
  1 + ((pos.history.take pos.halfmoves.toNat).map (fun st => st.hash)).count pos.positionHash

/-- Modelled from the spec: `Position::isThreefoldRepetition` — the current
hash appears three or more times in history since the last irreversible
move. -/
def isThreefoldRepetition (pos : Position) : Bool := repetitionCount pos ≥ 3

/-- Modelled from the spec: `Position::isDraw` — "true iff insufficient
material, 50-move clock ≥ 100 halfmoves, or threefold repetition" (spec
section 4.4). -/
def isDraw (pos : Position) : Bool :=
  isInsufficientMaterial pos || pos.halfmoves ≥ 100 || isThreefoldRepetition pos

/-- Whether `makeMove` records a capture for this move (the value the
`history.back().captured != NO_PIECE` test sees after the per-move-type
dispatch): the destination piece for normal moves and promotions, the
pawn behind the target square for en passant, nothing for castling. -/
def capturedFlag (pos : Position) (m : Nat) : Bool :=
  (if moveType m == NORMAL_MOVE then
      (if pieceAt pos (toSquare m) != NO_PIECE then pieceAt pos (toSquare m) else NO_PIECE)
    else if moveType m == PROMOTION then
      (if pieceAt pos (toSquare m) != NO_PIECE then pieceAt pos (toSquare m) else NO_PIECE)
    else if moveType m == EN_PASSANT then
      pieceAt pos (((toSquare m : Int) - (if pos.stm == WHITE then 8 else -8)).toNat)
    else NO_PIECE) != NO_PIECE

/-- The castling-rights update exactly as `makeMove` performs it
(Position.cpp lines 293-307): the king clause, then the corner clauses
guarded by `pt == ROOK || history.back().captured != NO_PIECE`. -/
def codeCastlingUpdate (castling pt us from_ to_ : Nat) (cap : Bool) : Nat :=
  let c := if pt == KING then
      (if us == WHITE then castling &&& (15 ^^^ (WHITE_OO ||| WHITE_OOO))
       else castling &&& (15 ^^^ (BLACK_OO ||| BLACK_OOO)))
    else castling
  if pt == ROOK || cap then
    let c := if from_ == 0 || to_ == 0 then c &&& (15 ^^^ WHITE_OOO) else c
    let c := if from_ == 7 || to_ == 7 then c &&& (15 ^^^ WHITE_OO) else c
    let c := if from_ == 56 || to_ == 56 then c &&& (15 ^^^ BLACK_OOO) else c
    if from_ == 63 || to_ == 63 then c &&& (15 ^^^ BLACK_OO) else c
  else c

end Position

/-- The castling-rights update rule exactly as the specification words it
(for comparison with what `makeMove` computes): "king move clears both of
its side's rights; any move from or to A1/H1/A8/H8 clears the corresponding
right". -/
def castlingUpdateSpec (castling pt us from_ to_ : Nat) : Nat :=
  let c := if pt = KING then
      (if us = WHITE then castling &&& (15 ^^^ (WHITE_OO ||| WHITE_OOO))
       else castling &&& (15 ^^^ (BLACK_OO ||| BLACK_OOO)))
    else castling
  let c := if from_ = 0 ∨ to_ = 0 then c &&& (15 ^^^ WHITE_OOO) else c
  let c := if from_ = 7 ∨ to_ = 7 then c &&& (15 ^^^ WHITE_OO) else c
  let c := if from_ = 56 ∨ to_ = 56 then c &&& (15 ^^^ BLACK_OOO) else c
  if from_ = 63 ∨ to_ = 63 then c &&& (15 ^^^ BLACK_OO) else c

namespace Position

/-- Array fields have their C++ lengths and 64-bit values, and the scalar
state is in range (spec section 3). -/
def WFarrays (pos : Position) : Prop :=
  pos.byType.length = 6 ∧ pos.byColor.length = 2 ∧ pos.board.length = 64 ∧
  (∀ t < 6, pos.byType.getD t 0 < 2 ^ 64) ∧
  (∀ c < 2, pos.byColor.getD c 0 < 2 ^ 64) ∧
  pos.stm < 2 ∧ pos.castling < 16 ∧
  (pos.epSquare = NO_SQUARE ∨ pos.epSquare < 64)

instance (pos : Position) : Decidable (WFarrays pos) := by
  unfold WFarrays; infer_instance

/-- The mailbox and the bitboards agree (spec section 3, invariants 1-2). -/
def WFboards (pos : Position) : Prop :=
  (∀ sq < 64, ∀ t < 6,
    ((pos.byType.getD t 0).testBit sq ↔
      pos.board.getD sq NO_PIECE < 12 ∧ typeOf (pos.board.getD sq NO_PIECE) = t)) ∧
  (∀ sq < 64, ∀ c < 2,
    ((pos.byColor.getD c 0).testBit sq ↔
      pos.board.getD sq NO_PIECE < 12 ∧ colorOf (pos.board.getD sq NO_PIECE) = c)) ∧
  (∀ sq < 64, pos.board.getD sq NO_PIECE ≤ 12)

instance (pos : Position) : Decidable (WFboards pos) := by
  unfold WFboards; infer_instance

/-- Pawns do not stand on the first or last rank, and each side has exactly
one king (spec section 3 invariant 3, section 7). -/
def WFpieces (pos : Position) : Prop :=
  (∀ sq < 64, pos.board.getD sq NO_PIECE < 12 → typeOf (pos.board.getD sq NO_PIECE) = PAWN →
    1 ≤ rankOf sq ∧ rankOf sq ≤ 6) ∧
  BB.popCount (piecesCT pos WHITE KING) = 1 ∧
  BB.popCount (piecesCT pos BLACK KING) = 1

instance (pos : Position) : Decidable (WFpieces pos) := by
  unfold WFpieces; infer_instance

/-- The en-passant square, when set, is the standard double-push target
with the pushed pawn behind it and the target square empty (spec section 3
invariant 5). -/
def WFep (pos : Position) : Prop :=
  pos.epSquare ≠ NO_SQUARE →
    (pos.stm = WHITE →
      rankOf pos.epSquare = 5 ∧ pos.board.getD pos.epSquare NO_PIECE = NO_PIECE ∧
      pos.board.getD (pos.epSquare - 8) NO_PIECE = makePiece BLACK PAWN) ∧
    (pos.stm = BLACK →
      rankOf pos.epSquare = 2 ∧ pos.board.getD pos.epSquare NO_PIECE = NO_PIECE ∧
      pos.board.getD (pos.epSquare + 8) NO_PIECE = makePiece WHITE PAWN)

instance (pos : Position) : Decidable (WFep pos) := by
  unfold WFep; infer_instance

/-- A castling right is only present with the king and the corresponding
rook on their home squares (standard FEN semantics; spec section 6). -/
def WFcastle (pos : Position) : Prop :=
  (pos.castling &&& WHITE_OO ≠ 0 →
    pos.board.getD 7 NO_PIECE = makePiece WHITE ROOK ∧
    pos.board.getD 4 NO_PIECE = makePiece WHITE KING) ∧
  (pos.castling &&& WHITE_OOO ≠ 0 →
    pos.board.getD 0 NO_PIECE = makePiece WHITE ROOK ∧
    pos.board.getD 4 NO_PIECE = makePiece WHITE KING) ∧
  (pos.castling &&& BLACK_OO ≠ 0 →
    pos.board.getD 63 NO_PIECE = makePiece BLACK ROOK ∧
    pos.board.getD 60 NO_PIECE = makePiece BLACK KING) ∧
  (pos.castling &&& BLACK_OOO ≠ 0 →
    pos.board.getD 56 NO_PIECE = makePiece BLACK ROOK ∧
    pos.board.getD 60 NO_PIECE = makePiece BLACK KING)

instance (pos : Position) : Decidable (WFcastle pos) := by
  unfold WFcastle; infer_instance

/-- Well-formedness of a `Position`, as assumed throughout the engine
(spec section 3 invariants 1-5, section 7 "the contract requires
well-formed chess positions"). -/
def WF (pos : Position) : Prop :=
  WFarrays pos ∧ WFboards pos ∧ WFpieces pos ∧ WFep pos ∧ WFcastle pos

instance (pos : Position) : Decidable (WF pos) := by
  unfold WF; infer_instance

end Position

/-!
### Theorems

Everything from here on is proof: general lemmas about the embedded
operations followed by one theorem per claim (with witnesses and
counterexamples where required).
-/

set_option maxRecDepth 100000 in
/-- The tabulated Zobrist key table is exactly the mt19937_64 output
sequence for the seed Zobrist.cpp uses. -/
theorem Zobrist.keys_eq_mtOutputs : Zobrist.keys = Zobrist.mtOutputs 0x123456789ABCDEF0 793 := by
  rfl

namespace Position

/-- The placement loop of `setFromFEN` touches only the board arrays and
the hash: side to move, castling, en passant, the clocks and the history
stay at their incoming values. -/
theorem parsePlacement_scalars (chars : List Char) : ∀ (rank file : Int) (pos : Position),
    (parsePlacement chars rank file pos).2.stm = pos.stm ∧
    (parsePlacement chars rank file pos).2.castling = pos.castling ∧
    (parsePlacement chars rank file pos).2.epSquare = pos.epSquare ∧
    (parsePlacement chars rank file pos).2.halfmoves = pos.halfmoves ∧
    (parsePlacement chars rank file pos).2.fullmoves = pos.fullmoves ∧
    (parsePlacement chars rank file pos).2.history = pos.history := by
  induction chars with
  | nil => intro rank file pos; simp [parsePlacement]
  | cons ch rest ih =>
    intro rank file pos
    simp only [parsePlacement]
    split
    · exact ih _ _ pos
    · split
      · exact ih _ _ pos
      · split
        · simp
        · exact (ih _ _ _).imp id (fun h => h.imp id (fun h => h.imp id (fun h => h.imp id id)))

end Position

/-- C3 (amended): on every input on which `setFromFEN` fails, the scalar
state and the history are the cleared values; the board arrays and the hash
may retain the pieces parsed before the offending character (see the
counterexample below). -/
theorem setFromFEN_failure_scalars_cleared (fen : String)
    (h : (Position.setFromFEN fen).1 = false) :
    (Position.setFromFEN fen).2.stm = WHITE ∧
    (Position.setFromFEN fen).2.castling = NO_CASTLING ∧
    (Position.setFromFEN fen).2.epSquare = NO_SQUARE ∧
    (Position.setFromFEN fen).2.halfmoves = 0 ∧
    (Position.setFromFEN fen).2.fullmoves = 1 ∧
    (Position.setFromFEN fen).2.history = [] := by
  have hs := Position.parsePlacement_scalars
    (Position.extractToken fen.toList).1 7 0 Position.clearPos
  simp only [Position.setFromFEN] at h ⊢
  split at h
  · simp at h
  · next hb =>
    rw [if_neg hb]
    simpa [Position.clearPos] using hs

/-- C3 witness: a concrete failing FEN (illegal character `x` in the
placement field) on which the amended claim's hypotheses hold. -/
theorem setFromFEN_failure_scalars_cleared_witness :
    (Position.setFromFEN "rx w - - 0 1").1 = false ∧
    (Position.setFromFEN "rx w - - 0 1").2.stm = WHITE ∧
    (Position.setFromFEN "rx w - - 0 1").2.history = [] := by
  have h : (Position.setFromFEN "rx w - - 0 1").1 = false := by decide
  have h2 := setFromFEN_failure_scalars_cleared "rx w - - 0 1" h
  exact ⟨h, h2.1, h2.2.2.2.2.2⟩

set_option maxRecDepth 1000000 in
/-- C3 counterexample: the claim as stated is false — after this failing
parse the rook placed before the illegal character is still on the board,
so the bitboards, the mailbox and the hash are not in the cleared state. -/
theorem setFromFEN_failure_not_fully_cleared :
    (Position.setFromFEN "rx w - - 0 1").1 = false ∧
    (Position.setFromFEN "rx w - - 0 1").2.byType ≠ List.replicate 6 0 ∧
    (Position.setFromFEN "rx w - - 0 1").2.board ≠ List.replicate 64 NO_PIECE ∧
    (Position.setFromFEN "rx w - - 0 1").2.positionHash ≠ 0 := by
  decide

/-- C10: `unmakeMove` and `unmakeNullMove` on a position with an empty
history stack return without touching any field. -/
theorem unmake_on_empty_history_is_noop (pos : Position) (h : pos.history = []) :
    Position.unmakeMove pos = pos ∧ Position.unmakeNullMove pos = pos := by
  constructor
  · unfold Position.unmakeMove
    split
    · rfl
    · next st rest heq => rw [h] at heq; cases heq
  · unfold Position.unmakeNullMove
    split
    · rfl
    · next st rest heq => rw [h] at heq; cases heq

set_option maxRecDepth 1000000 in
/-- C10 witness: the freshly loaded starting position has an empty history,
and unmaking on it is a no-op. -/
theorem unmake_on_empty_history_is_noop_witness :
    (Position.setFromFEN Position.STARTING_FEN).2.history = [] ∧
    Position.unmakeMove (Position.setFromFEN Position.STARTING_FEN).2 =
      (Position.setFromFEN Position.STARTING_FEN).2 := by
  have h : (Position.setFromFEN Position.STARTING_FEN).2.history = [] := by decide
  exact ⟨h, (unmake_on_empty_history_is_noop _ h).1⟩

set_option maxRecDepth 1000000 in
/-- C2 counterexample: the claim's concrete consequence is false — loading
the FEN with en-passant square e3 (no black pawn can capture there) gives a
hash different from the same FEN with `-`, because `setFromFEN` XORs the
en-passant file key unconditionally (Position.cpp lines 146-148). -/
theorem ep_hash_depends_on_unCapturable_ep_square :
    (Position.setFromFEN "rnbqkbnr/pppppppp/8/8/4P3/8/PPPP1PPP/RNBQKBNR b KQkq e3 0 1").2.positionHash ≠
    (Position.setFromFEN "rnbqkbnr/pppppppp/8/8/4P3/8/PPPP1PPP/RNBQKBNR b KQkq - 0 1").2.positionHash := by
  decide

set_option maxRecDepth 1000000 in
/-- C2 (amended): the hash incorporates the en-passant file whenever the
FEN names an en-passant square, with no capturability condition: the two
loads differ exactly by the file-e en-passant key, which is nonzero. -/
theorem ep_hash_xors_file_key_unconditionally :
    (Position.setFromFEN "rnbqkbnr/pppppppp/8/8/4P3/8/PPPP1PPP/RNBQKBNR b KQkq e3 0 1").1 = true ∧
    (Position.setFromFEN "rnbqkbnr/pppppppp/8/8/4P3/8/PPPP1PPP/RNBQKBNR b KQkq - 0 1").1 = true ∧
    (Position.setFromFEN "rnbqkbnr/pppppppp/8/8/4P3/8/PPPP1PPP/RNBQKBNR b KQkq e3 0 1").2.positionHash =
      (Position.setFromFEN "rnbqkbnr/pppppppp/8/8/4P3/8/PPPP1PPP/RNBQKBNR b KQkq - 0 1").2.positionHash ^^^
      Zobrist.enpassant 4 ∧
    Zobrist.enpassant 4 ≠ 0 := by
  decide

set_option maxRecDepth 1000000 in
/-- C1: the code is wrong — making the legal move e2e4 from the starting
position and unmaking it restores every field except the Zobrist hash,
which ends up displaced by the two piece-square keys the undo operations
XOR in after the saved hash has already been restored (Position.cpp
unmakeMove restores `positionHash` before calling removePiece/putPiece).
The repo's own test ZobristHash_ConsistentAfterMakeUnmake requires hash
equality here. -/
theorem make_unmake_restores_all_but_hash :
    (mkMove 12 28) ∈ (MoveGen.generateLegalMovesSt (Position.setFromFEN Position.STARTING_FEN).2).1 ∧
    (let p0 := (Position.setFromFEN Position.STARTING_FEN).2
     let p1 := Position.unmakeMove (Position.makeMove p0 (mkMove 12 28))
     p1.byType = p0.byType ∧ p1.byColor = p0.byColor ∧ p1.board = p0.board ∧
     p1.stm = p0.stm ∧ p1.castling = p0.castling ∧ p1.epSquare = p0.epSquare ∧
     p1.halfmoves = p0.halfmoves ∧ p1.fullmoves = p0.fullmoves ∧
     p1.history = p0.history ∧
     p1.positionHash ≠ p0.positionHash ∧
     p1.positionHash = p0.positionHash ^^^ Zobrist.psq 0 12 ^^^ Zobrist.psq 0 28) := by
  decide

/-- C4 (spec-modelled): `isDraw` is true exactly when material is
insufficient, the halfmove clock has reached 100, or the current hash has
occurred three times since the last irreversible move; the spec's three
insufficient-material endpoints evaluate as required. -/
theorem isDraw_iff_spec :
    (∀ pos : Position, Position.isDraw pos = true ↔
      (Position.isInsufficientMaterial pos = true ∨ pos.halfmoves ≥ 100 ∨
       3 ≤ Position.repetitionCount pos)) ∧
    Position.isDraw (Position.setFromFEN "8/8/8/4k3/8/8/8/4KN2 w - - 0 1").2 = true ∧
    Position.isDraw (Position.setFromFEN "8/8/8/4k3/8/8/8/4KB2 w - - 0 1").2 = true ∧
    Position.isDraw (Position.setFromFEN "8/8/8/4k3/8/4P3/8/4K3 w - - 0 1").2 = false := by
  refine ⟨fun pos => ?_, by decide, by decide, by decide⟩
  simp [Position.isDraw, Position.isThreefoldRepetition, ge_iff_le, or_assoc]

namespace Magic

/-- A blocker only truncates a ray walk: every square attacked under some
occupancy is attacked under the empty occupancy. -/
theorem testBit_rayWalk_mono {occ b : Nat} :
    ∀ {l : List Nat}, (rayWalk occ l).testBit b = true → (rayWalk 0 l).testBit b = true := by
  intro l
  induction l with
  | nil => simp [rayWalk]
  | cons s rest ih =>
    intro h
    simp only [rayWalk, Nat.testBit_or, Bool.or_eq_true] at h ⊢
    rcases h with h | h
    · exact Or.inl h
    · refine Or.inr ?_
      rw [Nat.zero_testBit]
      split at h
      · simp [Nat.zero_testBit] at h
      · exact ih h

theorem foldl_or_rayWalk_mono (sq : Nat) (occ : Nat) (b : Nat) :
    ∀ (dirs : List Int) (acc acc' : Nat),
      (∀ i, acc.testBit i = true → acc'.testBit i = true) →
      (dirs.foldl (fun a d => a ||| rayWalk occ (raySquares sq d)) acc).testBit b = true →
      (dirs.foldl (fun a d => a ||| rayWalk 0 (raySquares sq d)) acc').testBit b = true := by
  intro dirs
  induction dirs with
  | nil => intro acc acc' hmono h; exact hmono b h
  | cons d ds ih =>
    intro acc acc' hmono h
    refine ih _ _ (fun i hi => ?_) h
    simp only [Nat.testBit_or, Bool.or_eq_true] at hi ⊢
    rcases hi with hi | hi
    · exact Or.inl (hmono i hi)
    · exact Or.inr (testBit_rayWalk_mono hi)

/-- Sliding attacks under any occupancy are contained in the empty-board
attacks. -/
theorem testBit_slidingAttacks_mono {sq occ b : Nat} {dirs : List Int}
    (h : (slidingAttacks sq occ dirs).testBit b = true) :
    (slidingAttacks sq 0 dirs).testBit b = true :=
  foldl_or_rayWalk_mono sq occ b dirs 0 0 (fun _ hi => hi) h

end Magic

/-- C9: after initialization, every rook-attack set on the empty board has
exactly 14 squares; every bishop-attack set on the empty board has between
7 and 13; and no sliding attack crosses a board edge — in particular
bishop-attacks(F8 = square 61, occ) never contains H1 = square 7 for any
occupancy. -/
theorem sliding_attacks_edge_properties :
    (∀ sq, sq < 64 → BB.popCount (Magic.rookAttacks sq 0) = 14) ∧
    (∀ sq, sq < 64 → 7 ≤ BB.popCount (Magic.bishopAttacks sq 0) ∧
      BB.popCount (Magic.bishopAttacks sq 0) ≤ 13) ∧
    (∀ occ : Nat, (Magic.bishopAttacks 61 occ).testBit 7 = false) := by
  refine ⟨by decide, by decide, fun occ => ?_⟩
  rw [Bool.eq_false_iff]
  intro h
  simp only [Magic.bishopAttacks] at h
  have h2 := Magic.testBit_slidingAttacks_mono h
  exact absurd h2 (by decide)

/-- C9 witness: the bounded parts evaluated at square A1. -/
theorem sliding_attacks_edge_properties_witness :
    (0 : Nat) < 64 ∧ BB.popCount (Magic.rookAttacks 0 0) = 14 ∧
    7 ≤ BB.popCount (Magic.bishopAttacks 0 0) ∧
    (Magic.bishopAttacks 61 0).testBit 7 = false :=
  ⟨by decide, sliding_attacks_edge_properties.1 0 (by decide),
   (sliding_attacks_edge_properties.2.1 0 (by decide)).1,
   sliding_attacks_edge_properties.2.2 0⟩

namespace Position

/-- When the capturing piece is the destination's only attacker and
removing it uncovers no slider, the exchange loop stops after its first
iteration, whatever the prune test says. -/
theorem seeLoop_single_attacker (pos : Position) (t mayXray fuel fromSet occ side attType : Nat)
    (gains : List Int)
    (hb : (Magic.bishopAttacks t (occ ^^^ fromSet) &&&
      (piecesCT pos WHITE BISHOP ||| piecesCT pos BLACK BISHOP |||
       piecesCT pos WHITE QUEEN ||| piecesCT pos BLACK QUEEN)) &&& (occ ^^^ fromSet) = 0)
    (hr : (Magic.rookAttacks t (occ ^^^ fromSet) &&&
      (piecesCT pos WHITE ROOK ||| piecesCT pos BLACK ROOK |||
       piecesCT pos WHITE QUEEN ||| piecesCT pos BLACK QUEEN)) &&& (occ ^^^ fromSet) = 0) :
    seeLoop pos t mayXray (fuel + 1) fromSet occ fromSet side attType gains =
      (pieceValuesI attType - gains.headD 0) :: gains := by
  simp only [seeLoop]
  split
  · rfl
  · by_cases hx : (fromSet &&& mayXray != 0) = true
    · simp only [Nat.xor_self, if_pos hx, Nat.zero_or, hb, hr, Nat.zero_and, bne_self_eq_false]
      rfl
    · simp only [Nat.xor_self, if_neg hx, Nat.zero_and, bne_self_eq_false]
      rfl

end Position

/-- C7: `see` returns 0 for every non-capture move; and a plain capture of
a piece of value V whose destination square has the capturing piece as its
only attacker (with no slider uncovered by the capture) evaluates to
exactly V, for a capturer of value W ≤ V. -/
theorem see_noncapture_zero_and_safe_capture_value (pos : Position) :
    (∀ m : Nat, pos.board.getD (toSquare m) NO_PIECE = NO_PIECE →
      moveType m ≠ EN_PASSANT → Position.see pos m = 0) ∧
    (∀ m : Nat, moveType m = NORMAL_MOVE →
      pos.board.getD (toSquare m) NO_PIECE ≠ NO_PIECE →
      Position.pieceValuesI (typeOf (pos.board.getD (fromSquare m) NO_PIECE)) ≤
        Position.pieceValuesI (typeOf (pos.board.getD (toSquare m) NO_PIECE)) →
      Position.attacksTo pos (toSquare m) &&& Position.occupied pos =
        BB.squareBB (fromSquare m) →
      (Magic.bishopAttacks (toSquare m) (Position.occupied pos ^^^ BB.squareBB (fromSquare m)) &&&
        (Position.piecesCT pos WHITE BISHOP ||| Position.piecesCT pos BLACK BISHOP |||
         Position.piecesCT pos WHITE QUEEN ||| Position.piecesCT pos BLACK QUEEN)) &&&
        (Position.occupied pos ^^^ BB.squareBB (fromSquare m)) = 0 →
      (Magic.rookAttacks (toSquare m) (Position.occupied pos ^^^ BB.squareBB (fromSquare m)) &&&
        (Position.piecesCT pos WHITE ROOK ||| Position.piecesCT pos BLACK ROOK |||
         Position.piecesCT pos WHITE QUEEN ||| Position.piecesCT pos BLACK QUEEN)) &&&
        (Position.occupied pos ^^^ BB.squareBB (fromSquare m)) = 0 →
      Position.see pos m = Position.pieceValuesI (typeOf (pos.board.getD (toSquare m) NO_PIECE))) := by
  constructor
  · intro m h1 h2
    have hb : (moveType m == EN_PASSANT) = false := by
      rw [beq_eq_false_iff_ne]; exact h2
    simp only [Position.see, hb, if_neg, Bool.false_eq_true, ite_false, h1]
    norm_num
    exact fun hc => absurd hc h2
  · intro m hmt hcap hWV honly hx2 hx3
    have hb : (moveType m == EN_PASSANT) = false := by
      rw [beq_eq_false_iff_ne, hmt]
      decide
    have hc : (pos.board.getD (toSquare m) NO_PIECE == NO_PIECE) = false := by
      rwa [beq_eq_false_iff_ne]
    simp only [Position.see, hb, hc, Bool.false_eq_true, ite_false, Bool.false_and]
    rw [honly]
    rw [show (33 : Nat) = 32 + 1 from rfl]
    rw [Position.seeLoop_single_attacker pos (toSquare m) _ 32 _ _ _ _ _ hx2 hx3]
    simp [Position.seeMinimax]

set_option maxRecDepth 1000000 in
/-- C7 witness: in `4k3/8/8/4r3/8/8/4R3/4K3 w - - 0 1`, the quiet move
Re2-e3 has SEE 0 and the capture Re2xe5 of the undefended rook (equal
values, no other attacker, no x-ray) has SEE 500. -/
theorem see_noncapture_zero_and_safe_capture_value_witness :
    (Position.setFromFEN "4k3/8/8/4r3/8/8/4R3/4K3 w - - 0 1").2.board.getD
        (toSquare (mkMove 12 20)) NO_PIECE = NO_PIECE ∧
    Position.see (Position.setFromFEN "4k3/8/8/4r3/8/8/4R3/4K3 w - - 0 1").2 (mkMove 12 20) = 0 ∧
    Position.see (Position.setFromFEN "4k3/8/8/4r3/8/8/4R3/4K3 w - - 0 1").2 (mkMove 12 36) = 500 := by
  refine ⟨by decide, ?_, ?_⟩
  · exact (see_noncapture_zero_and_safe_capture_value _).1 (mkMove 12 20) (by decide) (by decide)
  · have h := (see_noncapture_zero_and_safe_capture_value
      (Position.setFromFEN "4k3/8/8/4r3/8/8/4R3/4K3 w - - 0 1").2).2 (mkMove 12 36)
      (by decide) (by decide) (by decide) (by decide) (by decide) (by decide)
    rw [h]
    decide

namespace Position

@[simp] theorem putPiece_history (pos : Position) (pc sq : Nat) :
    (putPiece pos pc sq).history = pos.history := rfl

@[simp] theorem removePiece_history (pos : Position) (sq : Nat) :
    (removePiece pos sq).history = pos.history := by
  simp only [removePiece]
  split <;> rfl

@[simp] theorem movePiece_history (pos : Position) (a b : Nat) :
    (movePiece pos a b).history = pos.history := by
  simp only [movePiece, putPiece_history, removePiece_history]

@[simp] theorem setTopCaptured_history_length (pos : Position) (pc : Nat) :
    (setTopCaptured pos pc).history.length = pos.history.length := by
  simp only [setTopCaptured]
  cases pos.history <;> rfl

/-- `makeMove` pushes exactly one state record. -/
theorem makeMove_history_length (pos : Position) (m : Nat) :
    (makeMove pos m).history.length = pos.history.length + 1 := by
  simp [makeMove, apply_ite (fun (p : Position) => p.history),
    apply_ite (fun (l : List StateInfo) => l.length)]

/-- `unmakeMove` pops exactly one state record (and is a no-op on an empty
stack, where `Nat` subtraction also gives length 0). -/
theorem unmakeMove_history_length (pos : Position) :
    (unmakeMove pos).history.length = pos.history.length - 1 := by
  cases pos with
  | mk bt bc bd stm ca ep hm fm ph hist =>
    cases hist with
    | nil => rfl
    | cons st rest =>
      simp [unmakeMove, apply_ite (fun (p : Position) => p.history),
        apply_ite (fun (l : List StateInfo) => l.length)]

/-- `makeNullMove` pushes exactly one state record. -/
theorem makeNullMove_history_length (pos : Position) :
    (makeNullMove pos).history.length = pos.history.length + 1 := by
  simp [makeNullMove, apply_ite (fun (p : Position) => p.history),
    apply_ite (fun (l : List StateInfo) => l.length)]

/-- `unmakeNullMove` pops exactly one state record. -/
theorem unmakeNullMove_history_length (pos : Position) :
    (unmakeNullMove pos).history.length = pos.history.length - 1 := by
  cases pos with
  | mk bt bc bd stm ca ep hm fm ph hist =>
    cases hist with
    | nil => rfl
    | cons st rest =>
      simp [unmakeNullMove, apply_ite (fun (p : Position) => p.history),
        apply_ite (fun (l : List StateInfo) => l.length)]

/-- A make/unmake pair leaves the history length unchanged. -/
theorem unmake_make_history_length (pos : Position) (m : Nat) :
    (unmakeMove (makeMove pos m)).history.length = pos.history.length := by
  rw [unmakeMove_history_length, makeMove_history_length, Nat.add_sub_cancel]

/-- A null make/unmake pair leaves the history length unchanged. -/
theorem unmake_make_null_history_length (pos : Position) :
    (unmakeNullMove (makeNullMove pos)).history.length = pos.history.length := by
  rw [unmakeNullMove_history_length, makeNullMove_history_length, Nat.add_sub_cancel]

end Position

namespace MoveGen

theorem isLegalSt_history_length (pos : Position) (m : Nat) :
    ((isLegalSt pos m).2).history.length = pos.history.length := by
  simp only [isLegalSt]
  exact Position.unmake_make_history_length pos m

theorem legalFilterAux_history_length :
    ∀ (moves : List Nat) (pos : Position) (acc : List Nat),
      ((legalFilterAux moves pos acc).2).history.length = pos.history.length := by
  intro moves
  induction moves with
  | nil => intro pos acc; rfl
  | cons m rest ih =>
    intro pos acc
    simp only [legalFilterAux]
    rw [ih, isLegalSt_history_length]

theorem generateLegalMovesSt_history_length (pos : Position) :
    ((generateLegalMovesSt pos).2).history.length = pos.history.length :=
  legalFilterAux_history_length _ pos []

theorem capturesFilterAux_history_length :
    ∀ (moves : List Nat) (pos : Position) (acc : List Nat),
      ((capturesFilterAux moves pos acc).2).history.length = pos.history.length := by
  intro moves
  induction moves with
  | nil => intro pos acc; rfl
  | cons m rest ih =>
    intro pos acc
    simp only [capturesFilterAux]
    split
    · rw [ih, isLegalSt_history_length]
    · exact ih pos acc

theorem generateCapturesSt_history_length (pos : Position) :
    ((generateCapturesSt pos).2).history.length = pos.history.length :=
  capturesFilterAux_history_length _ pos []

end MoveGen

namespace AI

theorem checkAugment_history_length (acc : List Nat × Position) (m : Nat) :
    ((checkAugment acc m).2).history.length = acc.2.history.length := by
  simp only [checkAugment]
  split
  · rfl
  · simpa using Position.unmake_make_history_length acc.2 m

theorem foldl_checkAugment_history_length :
    ∀ (l : List Nat) (acc : List Nat × Position),
      ((l.foldl checkAugment acc).2).history.length = acc.2.history.length := by
  intro l
  induction l with
  | nil => intro acc; rfl
  | cons a t ih =>
    intro acc
    rw [List.foldl_cons, ih, checkAugment_history_length]

/-- The quiescence capture loop preserves the history length whenever the
recursive call does. -/
theorem qsLoopAux_history_length
    (recurse : Position → AIState → Int → Int → Int × Position × AIState)
    (hrec : ∀ p s a b, ((recurse p s a b).2.1).history.length = p.history.length) :
    ∀ (moves : List Nat) (pos : Position) (st : AIState) (alpha beta standPat : Int),
      ((qsLoopAux recurse moves pos st alpha beta standPat).2.1).history.length =
        pos.history.length := by
  intro moves
  induction moves with
  | nil => intro pos st alpha beta standPat; rfl
  | cons m rest ih =>
    intro pos st alpha beta standPat
    simp only [qsLoopAux]
    split
    · exact ih pos st alpha beta standPat
    · split
      · exact ih pos st alpha beta standPat
      · split
        · simp only [Position.unmakeMove_history_length, hrec,
            Position.makeMove_history_length, Nat.add_sub_cancel]
        · rw [ih]
          simp only [Position.unmakeMove_history_length, hrec,
            Position.makeMove_history_length, Nat.add_sub_cancel]

/-- C8 helper: `quiescence` returns its position with the history stack at
the same depth as on entry. -/
theorem quiescence_history_length :
    ∀ (fuel : Nat) (pos : Position) (st : AIState) (alpha beta : Int) (qsDepth : Nat),
      ((quiescence fuel pos st alpha beta qsDepth).2.1).history.length =
        pos.history.length := by
  intro fuel
  induction fuel with
  | zero => intro pos st alpha beta qsDepth; rfl
  | succ fuel ih =>
    intro pos st alpha beta qsDepth
    simp only [quiescence]
    repeat' split
    all_goals first
      | rfl
      | (rw [qsLoopAux_history_length _ (fun p s a b => ih p s a b (qsDepth + 1))]
         simp only [foldl_checkAugment_history_length,
           MoveGen.generateLegalMovesSt_history_length,
           MoveGen.generateCapturesSt_history_length])

/-- `pvsSearch` preserves the history length whenever the wrapped recursive
search does. -/
theorem pvsSearch_history_length
    (recurse : Position → AIState → Nat → Int → Int → Int × Position × AIState)
    (hrec : ∀ p s d a b, ((recurse p s d a b).2.1).history.length = p.history.length)
    (p1 : Position) (st : AIState) (newDepth reduction : Nat) (alpha beta : Int)
    (moveNum : Nat) :
    ((pvsSearch recurse p1 st newDepth reduction alpha beta moveNum).2.1).history.length =
      p1.history.length := by
  simp only [pvsSearch]
  repeat' split
  all_goals simp only [hrec]

/-- The move bookkeeping returns the unmade position on both of its
exits. -/
theorem nmAccum_history_length (depth ply : Nat) (beta : Int) (m : Nat)
    (r : LoopResult) (searched : Int × Position × AIState) :
    (((nmAccum depth ply beta m r searched).1).pos).history.length =
      (Position.unmakeMove searched.2.1).history.length := by
  simp only [nmAccum]
  repeat' split
  all_goals rfl

/-- One negamax loop iteration preserves the history length whenever the
recursive search does. -/
theorem nmStep_history_length
    (recurse : Position → AIState → Nat → Int → Int → Int × Position × AIState)
    (hrec : ∀ p s d a b, ((recurse p s d a b).2.1).history.length = p.history.length)
    (depth ply : Nat) (beta : Int) (futilityPrune : Bool) (m moveNum : Nat)
    (r : LoopResult) :
    (((nmStep recurse depth ply beta futilityPrune m moveNum r).1).pos).history.length =
      r.pos.history.length := by
  simp only [nmStep]
  repeat' split
  all_goals first
    | (simp only [nmAccum_history_length, Position.unmakeMove_history_length,
         pvsSearch_history_length recurse hrec,
         Position.makeMove_history_length, Nat.add_sub_cancel])
    | rfl

/-- The negamax move loop preserves the history length whenever the
recursive search does. -/
theorem nmLoopAux_history_length
    (recurse : Position → AIState → Nat → Int → Int → Int × Position × AIState)
    (hrec : ∀ p s d a b, ((recurse p s d a b).2.1).history.length = p.history.length)
    (depth ply : Nat) (beta : Int) (futilityPrune : Bool) :
    ∀ (moves : List Nat) (moveNum : Nat) (r : LoopResult),
      ((nmLoopAux recurse depth ply beta futilityPrune moves moveNum r).pos).history.length =
        r.pos.history.length := by
  intro moves
  induction moves with
  | nil => intro moveNum r; rfl
  | cons m rest ih =>
    intro moveNum r
    simp only [nmLoopAux]
    split
    · exact nmStep_history_length recurse hrec depth ply beta futilityPrune m moveNum r
    · rw [ih]
      exact nmStep_history_length recurse hrec depth ply beta futilityPrune m moveNum r

/-- The null-move step returns a position with the entry history length
(the null make is undone on both its exits) whenever the wrapped search
preserves the length. -/
theorem nullMoveStep_history_length
    (search : AIState → Position → Nat → Int → Int → Nat → Int × Position × AIState)
    (hs : ∀ s p d a b pl, ((search s p d a b pl).2.1).history.length = p.history.length)
    (st : AIState) (pos : Position) (depth : Nat) (beta : Int) (ply : Nat) :
    ((nullMoveStep search st pos depth beta ply).2.1).history.length =
      pos.history.length := by
  simp only [nullMoveStep]
  repeat' split
  all_goals first
    | rfl
    | simp only [Position.unmakeNullMove_history_length, hs,
        Position.makeNullMove_history_length, Nat.add_sub_cancel]

theorem razorStep_history_length
    (qs : Position → AIState → Int → Int → Nat → Int × Position × AIState)
    (hq : ∀ p s a b d, ((qs p s a b d).2.1).history.length = p.history.length)
    (pos : Position) (st : AIState) (depth : Nat) (alpha beta : Int) :
    ((razorStep qs pos st depth alpha beta).2.1).history.length =
      pos.history.length := by
  simp only [razorStep]
  repeat' split
  all_goals first
    | rfl
    | simp only [hq]

theorem iidProbe_history_length
    (search : AIState → Position → Nat → Int → Int → Nat → Int × Position × AIState)
    (hs : ∀ s p d a b pl, ((search s p d a b pl).2.1).history.length = p.history.length)
    (st : AIState) (pos : Position) (moves : List Nat) (ttMove hash ttIndex depth : Nat)
    (alpha beta : Int) (ply : Nat) :
    ((iidProbe search st pos moves ttMove hash ttIndex depth alpha beta ply).2.1).history.length =
      pos.history.length := by
  simp only [iidProbe]
  repeat' split
  all_goals first
    | rfl
    | simp only [hs]

/-- C8 helper: `negamax` returns its position with the history stack at the
same depth as on entry, on every exit path. -/
theorem negamax_history_length :
    ∀ (fuel : Nat) (st : AIState) (pos : Position) (depth : Nat) (alpha beta : Int)
      (ply : Nat),
      ((negamax fuel st pos depth alpha beta ply).2.1).history.length =
        pos.history.length := by
  intro fuel
  induction fuel with
  | zero => intro st pos depth alpha beta ply; rfl
  | succ fuel ih =>
    intro st pos depth alpha beta ply
    have hnull := nullMoveStep_history_length (negamax fuel)
      (fun s p d a b pl => ih s p d a b pl)
    have hrazor := razorStep_history_length (quiescence fuel)
      (fun p s a b d => quiescence_history_length fuel p s a b d)
    have hiid := iidProbe_history_length (negamax fuel)
      (fun s p d a b pl => ih s p d a b pl)
    have hnm := nmLoopAux_history_length
      (fun p s d a b => negamax fuel s p d a b (ply + 1))
      (fun p s d a b => ih s p d a b (ply + 1))
    simp only [negamax]
    repeat' split
    all_goals first
      | (simp only [hnm, hnull, hrazor, hiid, quiescence_history_length,
           MoveGen.generateLegalMovesSt_history_length])
      | rfl

end AI

namespace Position

@[simp] theorem putPiece_castling (pos : Position) (pc sq : Nat) :
    (putPiece pos pc sq).castling = pos.castling := rfl

@[simp] theorem removePiece_castling (pos : Position) (sq : Nat) :
    (removePiece pos sq).castling = pos.castling := by
  simp only [removePiece]
  split <;> rfl

@[simp] theorem movePiece_castling (pos : Position) (a b : Nat) :
    (movePiece pos a b).castling = pos.castling := by
  simp only [movePiece, putPiece_castling, removePiece_castling]

@[simp] theorem setTopCaptured_castling (pos : Position) (pc : Nat) :
    (setTopCaptured pos pc).castling = pos.castling := rfl

@[simp] theorem setTopCaptured_history (pos : Position) (pc : Nat) :
    (setTopCaptured pos pc).history =
      match pos.history with
      | s :: rest => { s with captured := pc } :: rest
      | [] => [] := rfl

/-- The castling field of `makeMove` is exactly the code's update applied
to the entry castling rights, the moved piece type, the side to move, the
move's endpoints and the recorded-capture flag. -/
theorem makeMove_castling (pos : Position) (m : Nat) :
    (makeMove pos m).castling =
      codeCastlingUpdate pos.castling (typeOf (pieceAt pos (fromSquare m))) pos.stm
        (fromSquare m) (toSquare m) (capturedFlag pos m) := by
  have ap := apply_ite (fun p : Position => p.castling)
  have ah := apply_ite (fun p : Position => p.history)
  have ab := apply_ite (fun p : Position => p.board)
  by_cases h1 : (moveType m == NORMAL_MOVE) = true
  · by_cases hcap : pos.board[toSquare m]?.getD NO_PIECE = NO_PIECE
    · simp [makeMove, codeCastlingUpdate, capturedFlag, topCaptured, pieceAt, h1, hcap,
        ap, ah, ab]
    · simp [makeMove, codeCastlingUpdate, capturedFlag, topCaptured, pieceAt, h1, hcap,
        ap, ah, ab]
  · by_cases h2 : (moveType m == PROMOTION) = true
    · by_cases hcap : pos.board[toSquare m]?.getD NO_PIECE = NO_PIECE
      · simp [makeMove, codeCastlingUpdate, capturedFlag, topCaptured, pieceAt, h1, h2, hcap,
          ap, ah, ab]
      · simp [makeMove, codeCastlingUpdate, capturedFlag, topCaptured, pieceAt, h1, h2, hcap,
          ap, ah, ab]
    · by_cases h3 : (moveType m == EN_PASSANT) = true
      · simp [makeMove, codeCastlingUpdate, capturedFlag, topCaptured, pieceAt, h1, h2, h3,
          ap, ah, ab]
      · simp [makeMove, codeCastlingUpdate, capturedFlag, topCaptured, pieceAt, h1, h2, h3,
          ap, ah, ab]

end Position

/-- Boolean equality is the decision of propositional equality. -/
theorem beq_decide (a b : Nat) : (a == b) = decide (a = b) := by
  by_cases h : a = b <;> simp [h]

/-- Disjunction of decisions is the decision of the disjunction. -/
theorem or_decide (p q : Prop) [Decidable p] [Decidable q] :
    (decide p || decide q) = decide (p ∨ q) := by
  by_cases hp : p <;> by_cases hq : q <;> simp [hp, hq]

theorem castle_noop_wooo : ∀ c < 16, c &&& WHITE_OOO = 0 → c &&& (15 ^^^ WHITE_OOO) = c := by
  decide

theorem castle_noop_woo : ∀ c < 16, c &&& WHITE_OO = 0 → c &&& (15 ^^^ WHITE_OO) = c := by
  decide

theorem castle_noop_booo : ∀ c < 16, c &&& BLACK_OOO = 0 → c &&& (15 ^^^ BLACK_OOO) = c := by
  decide

theorem castle_noop_boo : ∀ c < 16, c &&& BLACK_OO = 0 → c &&& (15 ^^^ BLACK_OO) = c := by
  decide

/-- The spec's corner-clearing chain is the identity when every corner that
fires has its castling bit already clear. -/
theorem spec_chain_noop (c : Nat) (hlt : c < 16) (P0 P7 P56 P63 : Prop)
    [Decidable P0] [Decidable P7] [Decidable P56] [Decidable P63]
    (h0 : P0 → c &&& WHITE_OOO = 0) (h7 : P7 → c &&& WHITE_OO = 0)
    (h56 : P56 → c &&& BLACK_OOO = 0) (h63 : P63 → c &&& BLACK_OO = 0) :
    (let c2 := if P0 then c &&& (15 ^^^ WHITE_OOO) else c
     let c3 := if P7 then c2 &&& (15 ^^^ WHITE_OO) else c2
     let c4 := if P56 then c3 &&& (15 ^^^ BLACK_OOO) else c3
     if P63 then c4 &&& (15 ^^^ BLACK_OO) else c4) = c := by
  by_cases p0 : P0 <;> by_cases p7 : P7 <;> by_cases p56 : P56 <;> by_cases p63 : P63 <;>
    simp_all [castle_noop_wooo, castle_noop_woo, castle_noop_booo, castle_noop_boo]

/-- The king clause keeps the rights below 16 and preserves cleared bits. -/
theorem king_clause_bits : ∀ x < 16,
    (x &&& (15 ^^^ (WHITE_OO ||| WHITE_OOO)) < 16 ∧
     x &&& (15 ^^^ (BLACK_OO ||| BLACK_OOO)) < 16) ∧
    (x &&& WHITE_OOO = 0 →
      (x &&& (15 ^^^ (WHITE_OO ||| WHITE_OOO))) &&& WHITE_OOO = 0 ∧
      (x &&& (15 ^^^ (BLACK_OO ||| BLACK_OOO))) &&& WHITE_OOO = 0) ∧
    (x &&& WHITE_OO = 0 →
      (x &&& (15 ^^^ (WHITE_OO ||| WHITE_OOO))) &&& WHITE_OO = 0 ∧
      (x &&& (15 ^^^ (BLACK_OO ||| BLACK_OOO))) &&& WHITE_OO = 0) ∧
    (x &&& BLACK_OOO = 0 →
      (x &&& (15 ^^^ (WHITE_OO ||| WHITE_OOO))) &&& BLACK_OOO = 0 ∧
      (x &&& (15 ^^^ (BLACK_OO ||| BLACK_OOO))) &&& BLACK_OOO = 0) ∧
    (x &&& BLACK_OO = 0 →
      (x &&& (15 ^^^ (WHITE_OO ||| WHITE_OOO))) &&& BLACK_OO = 0 ∧
      (x &&& (15 ^^^ (BLACK_OO ||| BLACK_OOO))) &&& BLACK_OO = 0) := by
  decide

/-- The code's guarded castling update agrees with the spec's unconditional
one whenever each firing corner clause is covered by the guard or has its
bit already clear. -/
theorem codeSpec_agree (castling pt us f t : Nat) (cap : Bool)
    (hc : castling < 16)
    (h0 : f = 0 ∨ t = 0 → pt = ROOK ∨ cap = true ∨ castling &&& WHITE_OOO = 0)
    (h7 : f = 7 ∨ t = 7 → pt = ROOK ∨ cap = true ∨ castling &&& WHITE_OO = 0)
    (h56 : f = 56 ∨ t = 56 → pt = ROOK ∨ cap = true ∨ castling &&& BLACK_OOO = 0)
    (h63 : f = 63 ∨ t = 63 → pt = ROOK ∨ cap = true ∨ castling &&& BLACK_OO = 0) :
    Position.codeCastlingUpdate castling pt us f t cap =
      castlingUpdateSpec castling pt us f t := by
  by_cases hg : (pt == ROOK || cap) = true
  · have hgd : (decide (pt = ROOK) || cap) = true := by
      rw [← beq_decide]
      exact hg
    simp only [Position.codeCastlingUpdate, castlingUpdateSpec, beq_decide, or_decide,
      decide_eq_true_eq, hgd, eq_self_iff_true, if_true]
  · have hgd : (decide (pt = ROOK) || cap) = false := by
      rw [← beq_decide]
      cases h : (pt == ROOK || cap)
      · rfl
      · exact absurd h hg
    have hpt : pt ≠ ROOK := by
      intro h
      apply hg
      simp [h]
    have hcapf : cap = false := by
      cases h : cap
      · rfl
      · exfalso
        apply hg
        simp [h]
    have h0' : f = 0 ∨ t = 0 → castling &&& WHITE_OOO = 0 := by
      intro h
      rcases h0 h with h | h | h
      · exact absurd h hpt
      · rw [hcapf] at h
        exact absurd h (by simp)
      · exact h
    have h7' : f = 7 ∨ t = 7 → castling &&& WHITE_OO = 0 := by
      intro h
      rcases h7 h with h | h | h
      · exact absurd h hpt
      · rw [hcapf] at h
        exact absurd h (by simp)
      · exact h
    have h56' : f = 56 ∨ t = 56 → castling &&& BLACK_OOO = 0 := by
      intro h
      rcases h56 h with h | h | h
      · exact absurd h hpt
      · rw [hcapf] at h
        exact absurd h (by simp)
      · exact h
    have h63' : f = 63 ∨ t = 63 → castling &&& BLACK_OO = 0 := by
      intro h
      rcases h63 h with h | h | h
      · exact absurd h hpt
      · rw [hcapf] at h
        exact absurd h (by simp)
      · exact h
    simp only [Position.codeCastlingUpdate, castlingUpdateSpec, beq_decide, or_decide,
      decide_eq_true_eq, hgd, Bool.false_eq_true, if_false]
    by_cases hk : pt = KING
    · by_cases hu : us = WHITE
      · simp only [hk, hu, eq_self_iff_true, if_true]
        exact (spec_chain_noop _ ((king_clause_bits castling hc).1.1) _ _ _ _
          (fun h => ((king_clause_bits castling hc).2.1 (h0' h)).1)
          (fun h => ((king_clause_bits castling hc).2.2.1 (h7' h)).1)
          (fun h => ((king_clause_bits castling hc).2.2.2.1 (h56' h)).1)
          (fun h => ((king_clause_bits castling hc).2.2.2.2 (h63' h)).1)).symm
      · simp only [hk, hu, eq_self_iff_true, if_true, if_false]
        exact (spec_chain_noop _ ((king_clause_bits castling hc).1.2) _ _ _ _
          (fun h => ((king_clause_bits castling hc).2.1 (h0' h)).2)
          (fun h => ((king_clause_bits castling hc).2.2.1 (h7' h)).2)
          (fun h => ((king_clause_bits castling hc).2.2.2.1 (h56' h)).2)
          (fun h => ((king_clause_bits castling hc).2.2.2.2 (h63' h)).2)).symm
    · simp only [hk, if_false]
      exact (spec_chain_noop castling hc _ _ _ _ h0' h7' h56' h63').symm

set_option maxRecDepth 1000000 in
/-- Move packing: `mkMove`/`mkPromotion` land in the NORMAL/PROMOTION move
types for any origin below 64 and target below 80 (pawn pushes can name
squares up to 79 before the board-bound check). -/
theorem mk_move_fields : ∀ f < 64, ∀ t < 80,
    moveType (mkMove f t) = NORMAL_MOVE ∧
    ∀ pp < 5, moveType (mkPromotion f t pp) = PROMOTION := by
  decide

set_option maxRecDepth 1000000 in
/-- Move packing: field extraction for en-passant and castling moves. -/
theorem mk_ep_castle_fields : ∀ f < 64, ∀ t < 64,
    (fromSquare (mkEnPassant f t) = f ∧ toSquare (mkEnPassant f t) = t ∧
     moveType (mkEnPassant f t) = EN_PASSANT) ∧
    (fromSquare (mkCastling f t) = f ∧ toSquare (mkCastling f t) = t ∧
     moveType (mkCastling f t) = CASTLING) := by
  decide

namespace BB

theorem mem_squaresOf {bb s : Nat} : s ∈ squaresOf bb ↔ s < 64 ∧ bb.testBit s := by
  simp [squaresOf, List.mem_filter]

end BB

namespace MoveGen

/-- The legal filter only selects from its accumulator and its input list. -/
theorem mem_legalFilterAux :
    ∀ (l : List Nat) (p : Position) (acc : List Nat) (m : Nat),
      m ∈ (legalFilterAux l p acc).1 → m ∈ acc ∨ m ∈ l := by
  intro l
  induction l with
  | nil =>
    intro p acc m h
    left
    simpa [legalFilterAux] using h
  | cons x rest ih =>
    intro p acc m h
    simp only [legalFilterAux] at h
    rcases hE : isLegalSt p x with ⟨ok, p2⟩
    cases ok
    · rw [hE] at h
      simp only [Bool.false_eq_true, if_false] at h
      exact (ih _ _ _ h).imp id (List.mem_cons_of_mem x)
    · rw [hE] at h
      simp only [if_pos rfl] at h
      rcases ih _ _ _ h with hin | hin
      · rcases List.mem_cons.mp hin with rfl | hin
        · exact Or.inr (List.mem_cons_self _ _)
        · exact Or.inl hin
      · exact Or.inr (List.mem_cons_of_mem _ hin)

/-- Every legal move is pseudo-legal. -/
theorem mem_pseudo_of_mem_legal {pos : Position} {m : Nat}
    (h : m ∈ (generateLegalMovesSt pos).1) : m ∈ generatePseudoLegalMoves pos := by
  have h2 := mem_legalFilterAux (generatePseudoLegalMoves pos) pos [] m
    (by simpa [generateLegalMovesSt] using h)
  simpa using h2

/-- Shape of the moves produced for one pawn. -/
theorem mem_generatePawnMoves_shape (pos : Position) (us f m : Nat) (hf : f < 64)
    (h : m ∈ generatePawnMoves pos us f) :
    (∃ t, t < 80 ∧ m = mkMove f t) ∨
    (∃ t, t < 80 ∧ ∃ pp, pp < 5 ∧ m = mkPromotion f t pp) ∨
    ((pos.epSquare != NO_SQUARE) = true ∧ m = mkEnPassant f pos.epSquare) := by
  simp only [generatePawnMoves, List.mem_append] at h
  rcases h with (h | h) | h
  · -- pushes
    repeat' split at h
    all_goals first
      | exact absurd h (List.not_mem_nil m)
      | (simp only [List.mem_cons, List.mem_singleton, List.not_mem_nil, or_false] at h
         first
           | (rcases h with rfl | rfl | rfl | rfl
              all_goals exact Or.inr (Or.inl ⟨_, by omega, _, by decide, rfl⟩))
           | (rcases h with rfl | rfl
              all_goals exact Or.inl ⟨_, by omega, rfl⟩)
           | (subst h
              exact Or.inl ⟨_, by omega, rfl⟩))
  · -- captures
    rw [List.mem_flatMap] at h
    obtain ⟨t, ht, hm⟩ := h
    have htlt : t < 64 := (BB.mem_squaresOf.mp ht).1
    repeat' split at hm
    all_goals first
      | exact absurd hm (List.not_mem_nil m)
      | (simp only [List.mem_cons, List.mem_singleton, List.not_mem_nil, or_false] at hm
         first
           | (rcases hm with rfl | rfl | rfl | rfl
              all_goals exact Or.inr (Or.inl ⟨t, by omega, _, by decide, rfl⟩))
           | (subst hm
              exact Or.inl ⟨t, by omega, rfl⟩))
  · -- en passant
    split at h
    · next hcond =>
      simp only [List.mem_singleton] at h
      subst h
      have hc1 : (pos.epSquare != NO_SQUARE) = true := by
        simp only [Bool.and_eq_true] at hcond
        exact hcond.1
      exact Or.inr (Or.inr ⟨hc1, rfl⟩)
    · exact absurd h (List.not_mem_nil m)

/-- Shape of the moves produced for one piece type. -/
theorem mem_generatePieceMoves_shape (pos : Position) (pt us bb m : Nat)
    (h : m ∈ generatePieceMoves pos pt us bb) :
    ∃ f, f < 64 ∧ ∃ t, t < 64 ∧ m = mkMove f t := by
  simp only [generatePieceMoves, List.mem_flatMap] at h
  obtain ⟨f, hf, hm⟩ := h
  rw [List.mem_map] at hm
  obtain ⟨t, ht, rfl⟩ := hm
  exact ⟨f, (BB.mem_squaresOf.mp hf).1, t, (BB.mem_squaresOf.mp ht).1, rfl⟩

/-- The castling generator produces only the four standard king hops. -/
theorem mem_generateCastling_shape (pos : Position) (us m : Nat)
    (h : m ∈ generateCastling pos us) :
    m = mkCastling 4 6 ∨ m = mkCastling 60 62 ∨ m = mkCastling 4 2 ∨ m = mkCastling 60 58 := by
  simp only [generateCastling] at h
  repeat' split at h
  all_goals first
    | exact absurd h (List.not_mem_nil m)
    | (simp only [List.mem_append, List.mem_singleton, List.not_mem_nil, or_false,
         false_or] at h
       tauto)

end MoveGen

namespace Position

/-- A square holding one of the side-to-move's pawns is never a corner
square (well-formed positions keep pawns off the first and last ranks). -/
theorem pawn_bit_not_corner (pos : Position) (hwf : WF pos) (f : Nat) (hf : f < 64)
    (hbit : (piecesCT pos pos.stm PAWN).testBit f) :
    f ≠ 0 ∧ f ≠ 7 ∧ f ≠ 56 ∧ f ≠ 63 := by
  obtain ⟨ha, hb, hp, hep, hc⟩ := hwf
  have h2 := hbit
  rw [piecesCT, Nat.testBit_and] at h2
  simp only [Bool.and_eq_true] at h2
  have h1 := (hb.1 f hf PAWN (by decide)).mp h2.2
  have h2r := hp.1 f hf h1.1 h1.2
  have hr : rankOf f = f / 8 := by
    simp [rankOf, Nat.shiftRight_eq_div_pow]
  rw [hr] at h2r
  omega

/-- A set en-passant square is on rank 2 or 5, hence never a corner. -/
theorem ep_not_corner (pos : Position) (hwf : WF pos) (hne : pos.epSquare ≠ NO_SQUARE) :
    pos.epSquare < 64 ∧ pos.epSquare ≠ 0 ∧ pos.epSquare ≠ 7 ∧
    pos.epSquare ≠ 56 ∧ pos.epSquare ≠ 63 := by
  obtain ⟨ha, hb, hp, hep, hc⟩ := hwf
  have hlt : pos.epSquare < 64 := by
    rcases ha.2.2.2.2.2.2.2 with h | h
    · exact absurd h hne
    · exact h
  have hstm : pos.stm < 2 := ha.2.2.2.2.2.1
  have hr : rankOf pos.epSquare = pos.epSquare / 8 := by
    simp [rankOf, Nat.shiftRight_eq_div_pow]
  have hepc := hep hne
  have hrank : pos.epSquare / 8 = 5 ∨ pos.epSquare / 8 = 2 := by
    by_cases hw : pos.stm = WHITE
    · left
      have h5 := (hepc.1 hw).1
      rw [hr] at h5
      exact h5
    · right
      have hbk : pos.stm = BLACK := by
        simp only [WHITE] at hw
        simp only [BLACK]
        omega
      have h2 := (hepc.2 hbk).1
      rw [hr] at h2
      exact h2
  exact ⟨hlt, by omega, by omega, by omega, by omega⟩

end Position

/-- A pseudo-legal move of a well-formed position whose type is neither
NORMAL nor PROMOTION (i.e. an en-passant or castling move) never starts or
ends on a corner square. -/
theorem mem_pseudo_corners (pos : Position) (m : Nat) (hwf : Position.WF pos)
    (h : m ∈ MoveGen.generatePseudoLegalMoves pos)
    (hn : moveType m ≠ NORMAL_MOVE) (hpr : moveType m ≠ PROMOTION) :
    fromSquare m ≠ 0 ∧ fromSquare m ≠ 7 ∧ fromSquare m ≠ 56 ∧ fromSquare m ≠ 63 ∧
    toSquare m ≠ 0 ∧ toSquare m ≠ 7 ∧ toSquare m ≠ 56 ∧ toSquare m ≠ 63 := by
  simp only [MoveGen.generatePseudoLegalMoves, List.mem_append] at h
  rcases h with ((((((h | h) | h) | h) | h) | h) | h)
  · -- pawn moves
    rw [List.mem_flatMap] at h
    obtain ⟨f, hfmem, hm⟩ := h
    obtain ⟨hflt, hfbit⟩ := BB.mem_squaresOf.mp hfmem
    rcases MoveGen.mem_generatePawnMoves_shape pos pos.stm f m hflt hm with
      ⟨t, htl, rfl⟩ | ⟨t, htl, pp, hppl, rfl⟩ | ⟨hne, rfl⟩
    · exact absurd (mk_move_fields f hflt t htl).1 hn
    · exact absurd ((mk_move_fields f hflt t htl).2 pp hppl) hpr
    · have hne' : pos.epSquare ≠ NO_SQUARE := by simpa using hne
      obtain ⟨heplt, he0, he7, he56, he63⟩ := Position.ep_not_corner pos hwf hne'
      obtain ⟨hf0, hf7, hf56, hf63⟩ := Position.pawn_bit_not_corner pos hwf f hflt hfbit
      obtain ⟨hfr, htr, _⟩ := (mk_ep_castle_fields f hflt pos.epSquare heplt).1
      rw [hfr, htr]
      exact ⟨hf0, hf7, hf56, hf63, he0, he7, he56, he63⟩
  · obtain ⟨f, hflt, t, htl, rfl⟩ := MoveGen.mem_generatePieceMoves_shape pos _ _ _ m h
    exact absurd (mk_move_fields f hflt t (by omega)).1 hn
  · obtain ⟨f, hflt, t, htl, rfl⟩ := MoveGen.mem_generatePieceMoves_shape pos _ _ _ m h
    exact absurd (mk_move_fields f hflt t (by omega)).1 hn
  · obtain ⟨f, hflt, t, htl, rfl⟩ := MoveGen.mem_generatePieceMoves_shape pos _ _ _ m h
    exact absurd (mk_move_fields f hflt t (by omega)).1 hn
  · obtain ⟨f, hflt, t, htl, rfl⟩ := MoveGen.mem_generatePieceMoves_shape pos _ _ _ m h
    exact absurd (mk_move_fields f hflt t (by omega)).1 hn
  · obtain ⟨f, hflt, t, htl, rfl⟩ := MoveGen.mem_generatePieceMoves_shape pos _ _ _ m h
    exact absurd (mk_move_fields f hflt t (by omega)).1 hn
  · -- castling
    rcases MoveGen.mem_generateCastling_shape pos pos.stm m h with rfl | rfl | rfl | rfl
    all_goals decide

/-- C6: after `makeMove` of any legal move of a well-formed position, the
castling rights are updated exactly as the specification words it: a king
move clears both of the mover's rights, and any move whose from-square or
to-square is A1/H1/A8/H8 clears the corresponding right (WHITE_OOO for A1,
WHITE_OO for H1, BLACK_OOO for A8, BLACK_OO for H8). -/
theorem makeMove_castling_rights_spec (pos : Position) (m : Nat)
    (hwf : Position.WF pos) (hm : m ∈ (MoveGen.generateLegalMovesSt pos).1) :
    (Position.makeMove pos m).castling =
      castlingUpdateSpec pos.castling (typeOf (Position.pieceAt pos (fromSquare m)))
        pos.stm (fromSquare m) (toSquare m) := by
  have hps := MoveGen.mem_pseudo_of_mem_legal hm
  have hc16 : pos.castling < 16 := hwf.1.2.2.2.2.2.2.1
  have hcastle := hwf.2.2.2.2
  rw [Position.makeMove_castling]
  apply codeSpec_agree _ _ _ _ _ _ hc16
  · -- A1 / WHITE_OOO
    intro hcor
    by_cases hbit : pos.castling &&& WHITE_OOO = 0
    · exact Or.inr (Or.inr hbit)
    · have hrook : pos.board.getD 0 NO_PIECE = makePiece WHITE ROOK := (hcastle.2.1 hbit).1
      have hrook' : Position.pieceAt pos 0 = makePiece WHITE ROOK := hrook
      rcases hcor with hs | hs
      · left
        rw [hs, hrook']
        decide
      · by_cases h1 : moveType m = NORMAL_MOVE
        · refine Or.inr (Or.inl ?_)
          have hpa : Position.pieceAt pos (toSquare m) = makePiece WHITE ROOK := by
            rw [hs]
            exact hrook'
          simp [Position.capturedFlag, h1, hpa, makePiece, WHITE, ROOK, NO_PIECE, NORMAL_MOVE]
        · by_cases h2 : moveType m = PROMOTION
          · refine Or.inr (Or.inl ?_)
            have hpa : Position.pieceAt pos (toSquare m) = makePiece WHITE ROOK := by
              rw [hs]
              exact hrook'
            simp [Position.capturedFlag, h1, h2, hpa, makePiece, WHITE, ROOK, NO_PIECE,
              NORMAL_MOVE, PROMOTION]
          · exact absurd hs (mem_pseudo_corners pos m hwf hps h1 h2).2.2.2.2.1
  · -- H1 / WHITE_OO
    intro hcor
    by_cases hbit : pos.castling &&& WHITE_OO = 0
    · exact Or.inr (Or.inr hbit)
    · have hrook : pos.board.getD 7 NO_PIECE = makePiece WHITE ROOK := (hcastle.1 hbit).1
      have hrook' : Position.pieceAt pos 7 = makePiece WHITE ROOK := hrook
      rcases hcor with hs | hs
      · left
        rw [hs, hrook']
        decide
      · by_cases h1 : moveType m = NORMAL_MOVE
        · refine Or.inr (Or.inl ?_)
          have hpa : Position.pieceAt pos (toSquare m) = makePiece WHITE ROOK := by
            rw [hs]
            exact hrook'
          simp [Position.capturedFlag, h1, hpa, makePiece, WHITE, ROOK, NO_PIECE, NORMAL_MOVE]
        · by_cases h2 : moveType m = PROMOTION
          · refine Or.inr (Or.inl ?_)
            have hpa : Position.pieceAt pos (toSquare m) = makePiece WHITE ROOK := by
              rw [hs]
              exact hrook'
            simp [Position.capturedFlag, h1, h2, hpa, makePiece, WHITE, ROOK, NO_PIECE,
              NORMAL_MOVE, PROMOTION]
          · exact absurd hs (mem_pseudo_corners pos m hwf hps h1 h2).2.2.2.2.2.1
  · -- A8 / BLACK_OOO
    intro hcor
    by_cases hbit : pos.castling &&& BLACK_OOO = 0
    · exact Or.inr (Or.inr hbit)
    · have hrook : pos.board.getD 56 NO_PIECE = makePiece BLACK ROOK := (hcastle.2.2.2 hbit).1
      have hrook' : Position.pieceAt pos 56 = makePiece BLACK ROOK := hrook
      rcases hcor with hs | hs
      · left
        rw [hs, hrook']
        decide
      · by_cases h1 : moveType m = NORMAL_MOVE
        · refine Or.inr (Or.inl ?_)
          have hpa : Position.pieceAt pos (toSquare m) = makePiece BLACK ROOK := by
            rw [hs]
            exact hrook'
          simp [Position.capturedFlag, h1, hpa, makePiece, BLACK, ROOK, NO_PIECE, NORMAL_MOVE]
        · by_cases h2 : moveType m = PROMOTION
          · refine Or.inr (Or.inl ?_)
            have hpa : Position.pieceAt pos (toSquare m) = makePiece BLACK ROOK := by
              rw [hs]
              exact hrook'
            simp [Position.capturedFlag, h1, h2, hpa, makePiece, BLACK, ROOK, NO_PIECE,
              NORMAL_MOVE, PROMOTION]
          · exact absurd hs (mem_pseudo_corners pos m hwf hps h1 h2).2.2.2.2.2.2.1
  · -- H8 / BLACK_OO
    intro hcor
    by_cases hbit : pos.castling &&& BLACK_OO = 0
    · exact Or.inr (Or.inr hbit)
    · have hrook : pos.board.getD 63 NO_PIECE = makePiece BLACK ROOK := (hcastle.2.2.1 hbit).1
      have hrook' : Position.pieceAt pos 63 = makePiece BLACK ROOK := hrook
      rcases hcor with hs | hs
      · left
        rw [hs, hrook']
        decide
      · by_cases h1 : moveType m = NORMAL_MOVE
        · refine Or.inr (Or.inl ?_)
          have hpa : Position.pieceAt pos (toSquare m) = makePiece BLACK ROOK := by
            rw [hs]
            exact hrook'
          simp [Position.capturedFlag, h1, hpa, makePiece, BLACK, ROOK, NO_PIECE, NORMAL_MOVE]
        · by_cases h2 : moveType m = PROMOTION
          · refine Or.inr (Or.inl ?_)
            have hpa : Position.pieceAt pos (toSquare m) = makePiece BLACK ROOK := by
              rw [hs]
              exact hrook'
            simp [Position.capturedFlag, h1, h2, hpa, makePiece, BLACK, ROOK, NO_PIECE,
              NORMAL_MOVE, PROMOTION]
          · exact absurd hs (mem_pseudo_corners pos m hwf hps h1 h2).2.2.2.2.2.2.2

set_option maxRecDepth 1000000 in
/-- C6 witness: the starting position is well-formed, e2e4 is one of its
legal moves, and the castling field after `makeMove` matches the spec's
update (all rights kept). -/
theorem makeMove_castling_rights_spec_witness :
    Position.WF (Position.setFromFEN Position.STARTING_FEN).2 ∧
    mkMove 12 28 ∈ (MoveGen.generateLegalMovesSt (Position.setFromFEN Position.STARTING_FEN).2).1 ∧
    (Position.makeMove (Position.setFromFEN Position.STARTING_FEN).2 (mkMove 12 28)).castling =
      castlingUpdateSpec (Position.setFromFEN Position.STARTING_FEN).2.castling
        (typeOf (Position.pieceAt (Position.setFromFEN Position.STARTING_FEN).2
          (fromSquare (mkMove 12 28))))
        (Position.setFromFEN Position.STARTING_FEN).2.stm
        (fromSquare (mkMove 12 28)) (toSquare (mkMove 12 28)) :=
  ⟨by decide, by decide,
   makeMove_castling_rights_spec (Position.setFromFEN Position.STARTING_FEN).2
     (mkMove 12 28) (by decide) (by decide)⟩

set_option maxRecDepth 1000000 in
/-- C5 counterexample: at the stalemate position 7k/8/6QK/8/8/8/8/8 b, a
depth-1 negamax call with the null window (-20001, -20000) (a non-PV node)
returns the static evaluation -896 instead of the claimed 0: the
reverse-futility branch fires before the legal-move generation ever runs. -/
theorem stalemate_nonpv_rfp_returns_eval :
    (MoveGen.generateLegalMovesSt (Position.setFromFEN "7k/8/6QK/8/8/8/8/8 b - - 0 1").2).1 = [] ∧
    Position.inCheck (Position.setFromFEN "7k/8/6QK/8/8/8/8/8 b - - 0 1").2 = false ∧
    (AI.negamax 1 AI.freshState (Position.setFromFEN "7k/8/6QK/8/8/8/8/8 b - - 0 1").2
        1 (-20001) (-20000) 3).1 =
      AI.evaluate (Position.setFromFEN "7k/8/6QK/8/8/8/8/8 b - - 0 1").2 ∧
    AI.evaluate (Position.setFromFEN "7k/8/6QK/8/8/8/8/8 b - - 0 1").2 = -896 ∧
    (AI.negamax 1 AI.freshState (Position.setFromFEN "7k/8/6QK/8/8/8/8/8 b - - 0 1").2
        1 (-20001) (-20000) 3).1 ≠ 0 := by
  decide

/-- C5 (amended): with no time abort pending and no transposition-table hit
for the position, a negamax call at depth ≥ 1 on a position with no legal
moves returns -10000 + ply when the side to move is in check (checkmate);
when it is not in check (stalemate) it returns 0 at PV nodes
(beta - alpha > 1) of depth ≤ 2 — at non-PV nodes the reverse-futility
branch may instead return the static evaluation (see the counterexample).
The check test is stated both on the entry position and on the position
threaded through move generation, which are equal boards whenever
make/unmake restores the position. -/
theorem negamax_no_legal_moves_scores
    (fuel depth ply : Nat) (st : AI.AIState) (pos : Position) (alpha beta : Int)
    (htime : st.timeUp = false)
    (htt : ((st.tt (pos.positionHash % AI.TT_SIZE)).key == pos.positionHash) = false)
    (hempty : (MoveGen.generateLegalMovesSt pos).1 = [])
    (hdepth : 1 ≤ depth) :
    (Position.inCheck pos = true →
     Position.inCheck (MoveGen.generateLegalMovesSt pos).2 = true →
     (AI.negamax (fuel + 1) st pos depth alpha beta ply).1 = -10000 + (ply : Int)) ∧
    (Position.inCheck pos = false →
     Position.inCheck (MoveGen.generateLegalMovesSt pos).2 = false →
     depth ≤ 2 → 1 < beta - alpha →
     (AI.negamax (fuel + 1) st pos depth alpha beta ply).1 = 0) := by
  have hd0 : (depth == 0) = false := by
    simp only [beq_eq_false_iff_ne]
    omega
  constructor
  · intro h1 h2
    simp [AI.negamax, AI.ttProbe, AI.nullMoveStep, AI.rfpCheck, AI.razorStep,
      htime, htt, hd0, h1, h2, hempty]
  · intro h1 h2 hd2 hpv
    have h3 : (decide (depth ≥ 3)) = false := by
      simp only [decide_eq_false_iff_not]
      omega
    have hpb : (decide (1 < beta - alpha)) = true := decide_eq_true hpv
    simp [AI.negamax, AI.ttProbe, AI.nullMoveStep, AI.rfpCheck, AI.razorStep,
      htime, htt, hd0, h1, h2, hempty, h3, hpb]

set_option maxRecDepth 1000000 in
/-- C5 witness: the checkmate position after 1. f3 e5 2. g4 Qh4 (white to
move, in check, no legal moves) scores -10000 + 3 at ply 3, and the
stalemate 7k/8/6QK/8/8/8/8/8 b scores 0 at a depth-1 PV node. -/
theorem negamax_no_legal_moves_scores_witness :
    ((MoveGen.generateLegalMovesSt
        (Position.setFromFEN "rnb1kbnr/pppp1ppp/8/4p3/6Pq/5P2/PPPPP2P/RNBQKBNR w KQkq - 0 3").2).1 = [] ∧
     Position.inCheck
        (Position.setFromFEN "rnb1kbnr/pppp1ppp/8/4p3/6Pq/5P2/PPPPP2P/RNBQKBNR w KQkq - 0 3").2 = true ∧
     (AI.negamax 1 AI.freshState
        (Position.setFromFEN "rnb1kbnr/pppp1ppp/8/4p3/6Pq/5P2/PPPPP2P/RNBQKBNR w KQkq - 0 3").2
        1 (-20000) 20000 3).1 = -10000 + ((3 : Nat) : Int)) ∧
    ((MoveGen.generateLegalMovesSt (Position.setFromFEN "7k/8/6QK/8/8/8/8/8 b - - 0 1").2).1 = [] ∧
     Position.inCheck (Position.setFromFEN "7k/8/6QK/8/8/8/8/8 b - - 0 1").2 = false ∧
     (AI.negamax 1 AI.freshState (Position.setFromFEN "7k/8/6QK/8/8/8/8/8 b - - 0 1").2
        1 (-20000) 20000 3).1 = 0) :=
  ⟨⟨by decide, by decide,
    (negamax_no_legal_moves_scores 0 1 3 AI.freshState
        (Position.setFromFEN "rnb1kbnr/pppp1ppp/8/4p3/6Pq/5P2/PPPPP2P/RNBQKBNR w KQkq - 0 3").2
        (-20000) 20000 (by decide) (by decide) (by decide) (by decide)).1
      (by decide) (by decide)⟩,
   ⟨by decide, by decide,
    (negamax_no_legal_moves_scores 0 1 3 AI.freshState
        (Position.setFromFEN "7k/8/6QK/8/8/8/8/8 b - - 0 1").2
        (-20000) 20000 (by decide) (by decide) (by decide) (by decide)).2
      (by decide) (by decide) (by decide) (by decide)⟩⟩

/-- C8: Every path out of `negamax` (time abort, transposition-table hit,
null-move cutoff, reverse-futility return, razoring return, mate/stalemate
return, and the normal return through the move loop) and every path out of
`quiescence` leaves the Position's history stack at exactly the length it
had on entry: every makeMove/makeNullMove inside the search is paired with
its unmake before any return. -/
theorem search_preserves_history_depth :
    (∀ (fuel : Nat) (st : AI.AIState) (pos : Position) (depth : Nat) (alpha beta : Int)
       (ply : Nat),
       ((AI.negamax fuel st pos depth alpha beta ply).2.1).history.length =
         pos.history.length) ∧
    (∀ (fuel : Nat) (pos : Position) (st : AI.AIState) (alpha beta : Int) (qsDepth : Nat),
       ((AI.quiescence fuel pos st alpha beta qsDepth).2.1).history.length =
         pos.history.length) :=
  ⟨AI.negamax_history_length, AI.quiescence_history_length⟩

end Chess

